import Mathlib

/-!
Shallow embedding of the Watchman security-scanning pipeline
(`backend/orchestrator.py` together with the collaborators it drives:
`scanner.py`, `bedrock_agent.py`, `github_handler.py`, `database.py`).

Conventions of the embedding:

* Python dictionaries holding JSON-like data are association lists
  `List (String × Json)` with first-match lookup.  Real Python dicts have
  unique keys, for which the two semantics agree.
* Python strings are `String`; helpers with a `py` prefix reproduce the exact
  semantics of the Python primitives the source uses (`startswith`, `lower`,
  `upper`, `split`, slicing, `replace`, truthiness, `len`).
* External collaborators (git clone, the Semgrep process, the Claude HTTP
  call, the GitHub REST API, SMTP delivery) are modelled by an environment
  `Env` fixing the outcome of each call.  The repository's own functions are
  translated from the source, statement by statement.
* The SQLite persistence store is modelled as a reliable in-process value
  (`DbState`); its operations mirror the SQL statements of
  `database.py` and are assumed not to raise, matching the source's and the
  specification's treatment of the store as the one dependable resource.
-/

/-- JSON values as decoded by Python's `json.loads`: strings, numbers,
booleans, `null`, arrays and objects.  Objects are association lists in
insertion order, exactly as Python 3 dicts preserve insertion order. -/
inductive Json where
  | str (s : String)
  | num (n : Int)
  | bool (b : Bool)
  | null
  | arr (xs : List Json)
  | obj (fields : List (String × Json))

/-- A Python dict holding JSON-like values, in insertion order. -/
abbrev Dict := List (String × Json)

/-- `d.get(k, v)` on a Python dict. -/
def lookupD (d : Dict) (k : String) (v : Json) : Json :=
  (d.lookup k).getD v

/-- `k in d` on a Python dict. -/
def hasKey (d : Dict) (k : String) : Bool :=
  (d.lookup k).isSome

/-- `d[k] = v` on a Python dict: update the existing entry in place, or
append a new entry at the end (Python dicts keep insertion order). -/
def dictSet : Dict → String → Json → Dict
  | [], k, v => [(k, v)]
  | (k', v') :: rest, k, v =>
      if k' = k then (k, v) :: rest else (k', v') :: dictSet rest k v

/-- Python `len` on a JSON value: defined for strings, arrays and objects,
a `TypeError` (here `none`) otherwise. -/
def pyLen : Json → Option Nat
  | .str s => some s.length
  | .arr xs => some xs.length
  | .obj fs => some fs.length
  | _ => none

/-- Python truthiness of a JSON value. -/
def pyTruthy : Json → Bool
  | .str s => !(s == "")
  | .num n => !(n == 0)
  | .bool b => b
  | .null => false
  | .arr xs => !xs.isEmpty
  | .obj fs => !fs.isEmpty

/-- Truthiness of an optional string: `None` and `""` are falsy. -/
def pyTruthyOptStr : Option String → Bool
  | none => false
  | some s => !(s == "")

/-- Python `s.startswith(pre)`. -/
def pyStartsWith (s pre : String) : Bool :=
  pre.data.isPrefixOf s.data

/-- Python `s.lower()` (ASCII case folding, which is all the source needs). -/
def pyLower (s : String) : String :=
  ⟨s.data.map Char.toLower⟩

/-- Python `s.upper()` (ASCII case folding, which is all the source needs). -/
def pyUpper (s : String) : String :=
  ⟨s.data.map Char.toUpper⟩

/-- Python `s[:n]` on a string. -/
def pyTake (s : String) (n : Nat) : String :=
  ⟨s.data.take n⟩

/-- Splitting a character list at newline characters; the spine of
Python's `s.split("\n")`. -/
def splitCharsOnNl : List Char → List (List Char)
  | [] => [[]]
  | c :: rest =>
      let r := splitCharsOnNl rest
      if c = '\n' then [] :: r
      else
        match r with
        | h :: t => (c :: h) :: t
        | [] => [[c]]

/-- Python `s.split("\n")`: the empty string yields `[""]`, and every
newline separates two (possibly empty) fields. -/
def pySplitLines (s : String) : List String :=
  (splitCharsOnNl s.data).map fun cs => ⟨cs⟩

/-- Python `"\n".join(parts)`. -/
def joinWithNl : List String → String
  | [] => ""
  | [s] => s
  | s :: rest => s ++ "\n" ++ joinWithNl rest

/-- One scan step of Python `s.replace(pat, repl)` (leftmost,
non-overlapping), driven by a fuel that the wrapper sets to `s.length`. -/
def replaceFuel (pat repl : List Char) : Nat → List Char → List Char
  | _, [] => []
  | 0, s => s
  | fuel + 1, c :: rest =>
      if !pat.isEmpty && pat.isPrefixOf (c :: rest) then
        repl ++ replaceFuel pat repl fuel (List.drop pat.length (c :: rest))
      else
        c :: replaceFuel pat repl fuel rest

/-- Python `s.replace(pat, repl)` for a non-empty `pat` (the source only
ever replaces the literal `"refs/heads/"`). -/
def pyReplace (s pat repl : String) : String :=
  ⟨replaceFuel pat.data repl.data s.data.length s.data⟩

/-!  ### `github_handler._apply_code_changes`

One line-range replacement, as produced by the fix-generation model:
`{line_start, line_end, new_code}` with 1-indexed inclusive bounds.
-/

structure Change where
  line_start : Int
  line_end : Int
  new_code : String
deriving DecidableEq

/-- `new_code.split('\n') if new_code else ['']` from the source.  (Python's
`"".split("\n")` is also `[""]`, so both arms agree on the empty string.) -/
def newCodeLines (c : Change) : List String :=
  if c.new_code = "" then [""] else pySplitLines c.new_code

/-- `max(0, min(line_start - 1, len(lines)))`: the clamped 0-based start. -/
def startIdx (n : Nat) (c : Change) : Nat :=
  (max 0 (min (c.line_start - 1) (n : Int))).toNat

/-- `max(line_start, min(line_end - 1, len(lines)))`: the clamped 0-based
end (never before the clamped start). -/
def endIdx (n : Nat) (c : Change) : Nat :=
  (max (max 0 (min (c.line_start - 1) (n : Int))) (min (c.line_end - 1) (n : Int))).toNat

/-- The body of the loop in `_apply_code_changes`:
`lines[line_start : line_end + 1] = new_lines` after clamping. -/
def applyOneChange (lines : List String) (c : Change) : List String :=
  lines.take (startIdx lines.length c) ++ newCodeLines c
    ++ lines.drop (endIdx lines.length c + 1)

/-- Stable insertion into a list kept in descending `line_start` order. -/
def insertDescByStart (c : Change) : List Change → List Change
  | [] => [c]
  | d :: ds =>
      if d.line_start ≤ c.line_start then c :: d :: ds
      else d :: insertDescByStart c ds

/-- `sorted(changes, key=lambda x: x.get('line_start', 0), reverse=True)`:
a stable descending sort by `line_start` (Python's `sorted` is stable; for
the sorted output the two stable algorithms agree as functions). -/
def sortChangesDesc : List Change → List Change
  | [] => []
  | c :: cs => insertDescByStart c (sortChangesDesc cs)

/-- The loop of `_apply_code_changes` over the already-split lines. -/
def applyChangesLines (lines : List String) (changes : List Change) : List String :=
  (sortChangesDesc changes).foldl applyOneChange lines

/-- `GitHubHandler._apply_code_changes`: empty content concatenates the new
code blocks; otherwise split, replace bottom-up, and re-join. -/
def apply_code_changes (original_content : String) (changes : List Change) : String :=
  if original_content = "" then
    joinWithNl (changes.map (·.new_code))
  else
    joinWithNl (applyChangesLines (pySplitLines original_content) changes)

/-- Reference shape for a descending, pairwise-disjoint change set: each
replacement block sits between an untouched prefix of the original lines and
an untouched suffix.  Used to state that `_apply_code_changes` leaves every
line outside the changed ranges intact. -/
def spliceDesc (lines : List String) : List Change → List String
  | [] => lines
  | c :: cs =>
      spliceDesc (lines.take (c.line_start.toNat - 1)) cs
        ++ newCodeLines c ++ lines.drop c.line_end.toNat

/-!  ### `scanner.SecurityScanner._process_findings`  -/

/-- One raw Semgrep result, as read by `_process_findings`: the used keys of
the result object and of its `extra` / `extra.metadata` sub-objects, each
optional exactly where the source uses `.get` with a default. -/
structure RawFinding where
  check_id : Option String
  path : Option String
  start_line : Option Nat
  extra_severity : Option String
  extra_message : Option String
  extra_lines : Option String
  extra_cwe : List String
  extra_owasp : List String
deriving DecidableEq

/-- A normalized finding (the `vuln` dict built by `_process_findings`). -/
structure Vuln where
  rule_id : String
  message : String
  file : String
  line : Nat
  code_snippet : String
  severity : String
  cwe : List String
  owasp : List String
deriving DecidableEq

/-- `extra.get("severity", "INFO").upper()`, re-bucketed to `INFO` when it
is not one of the three keys of `by_severity`. -/
def severityOf (f : RawFinding) : String :=
  let s := pyUpper (f.extra_severity.getD "INFO")
  if s = "ERROR" ∨ s = "WARNING" ∨ s = "INFO" then s else "INFO"

/-- The `vuln` dict of `_process_findings` (severity already normalized,
as in the source, where the re-bucketing happens before the dict is built). -/
def mkVuln (f : RawFinding) : Vuln :=
  { rule_id := f.check_id.getD "unknown"
    message := f.extra_message.getD "No description"
    file := f.path.getD "unknown"
    line := f.start_line.getD 0
    code_snippet := f.extra_lines.getD ""
    severity := severityOf f
    cwe := f.extra_cwe
    owasp := f.extra_owasp }

/-- The processed scan dictionary returned by `_process_findings`. -/
structure ProcessedScan where
  total_findings : Nat
  sev_error : List Vuln
  sev_warning : List Vuln
  sev_info : List Vuln
  summary : String
deriving DecidableEq

/-- The bucket-filling loop of `_process_findings`: each finding is appended
to exactly one of the `ERROR` / `WARNING` / `INFO` lists. -/
def bucketStep (acc : List Vuln × List Vuln × List Vuln) (f : RawFinding) :
    List Vuln × List Vuln × List Vuln :=
  let s := severityOf f
  let v := mkVuln f
  if s = "ERROR" then (acc.1 ++ [v], acc.2.1, acc.2.2)
  else if s = "WARNING" then (acc.1, acc.2.1 ++ [v], acc.2.2)
  else (acc.1, acc.2.1, acc.2.2 ++ [v])

/-- `SecurityScanner._process_findings`: `total_findings` is the length of
the raw results list; findings are bucketed by normalized severity; the
summary string reports the three bucket sizes. -/
def process_findings (raw : List RawFinding) : ProcessedScan :=
  let buckets := raw.foldl bucketStep ([], [], [])
  let ec := buckets.1.length
  let wc := buckets.2.1.length
  let ic := buckets.2.2.length
  { total_findings := raw.length
    sev_error := buckets.1
    sev_warning := buckets.2.1
    sev_info := buckets.2.2
    summary := s!"Found {ec} critical, {wc} warnings, {ic} info" }

/-- `scan_repository`'s two result shapes: the processed findings dict, or
an error dict `\x7b"error": msg, "total_findings": 0\x7d` (clone path raised, the
Semgrep process failed with an unexpected exit code, timed out, or printed
unparseable JSON). -/
inductive ScanOut where
  | ok (r : ProcessedScan)
  | err (msg : String)
deriving DecidableEq

/-- `scan_results.get("error")` as the orchestrator reads it. -/
def scanError : ScanOut → Option String
  | .ok _ => none
  | .err m => some m

/-- `scan_results.get("total_findings", 0)`. -/
def scanTotal : ScanOut → Nat
  | .ok r => r.total_findings
  | .err _ => 0

/-- `scan_results.get("by_severity", \x7b\x7d).get("ERROR", [])`. -/
def scanErrList : ScanOut → List Vuln
  | .ok r => r.sev_error
  | .err _ => []

/-- `scan_results.get("by_severity", \x7b\x7d).get("WARNING", [])`. -/
def scanWarnList : ScanOut → List Vuln
  | .ok r => r.sev_warning
  | .err _ => []

/-- `scan_results.get("by_severity", \x7b\x7d).get("INFO", [])`. -/
def scanInfoList : ScanOut → List Vuln
  | .ok r => r.sev_info
  | .err _ => []

/-!  ### `bedrock_agent.BedrockAgentCore`  -/

/-- Repository context passed to the analysis (`repo_name`, `branch`,
`commit_sha`; the clone metadata only feeds the prompt text). -/
structure RepoCtx where
  repo_name : String
  branch : String
  commit_sha : String

/-- How `response_text` fares in `_parse_claude_response`:
`json.loads` succeeds with an object, succeeds with a non-object (the
required-keys loop then raises a `TypeError` that the outer handler turns
into the fallback response), fails but the brace-regex extracts an object,
fails and the extracted text raises again, or the regex finds no braces. -/
inductive TextParse where
  | direct (fields : Dict)
  | directNonDict
  | extract (fields : Dict)
  | extractRaise
  | noMatch

/-- The Claude HTTP response as `_parse_claude_response` reads it: missing
or empty `content` (`ValueError`), `content[0]` without a `text` key
(`KeyError`), or a text with its parse outcome.  `pyStr` is Python's
`str(response)`, used by the fallback's `raw_response` field. -/
inductive ClaudeResp where
  | noContent (pyStr : String)
  | noText (pyStr : String)
  | text (raw : String) (parse : TextParse) (pyStr : String)

/-- Behaviour of `_call_claude_api`: the HTTP call raised, or returned a
response object. -/
inductive ClaudeBehavior where
  | raised
  | ok (resp : ClaudeResp)

/-- `BedrockAgentCore._fallback_response`. -/
def fallback_response (pyStr : String) : Dict :=
  [("executive_summary", .str "Claude response could not be parsed"),
   ("critical_issues", .arr []),
   ("recommended_actions", .arr [.str "Review raw Claude output"]),
   ("tools_to_use", .arr []),
   ("raw_response", .str pyStr)]

/-- The text-derived structure built when no JSON can be extracted from the
response text. -/
def textFallbackDict (raw : String) : Dict :=
  [("executive_summary",
      .str (if raw.length > 200 then pyTake raw 200 ++ "..." else raw)),
   ("critical_issues", .arr []),
   ("recommended_actions", .arr [.str "Review the analysis text"]),
   ("tools_to_use", .arr [])]

def requiredKeys : List String :=
  ["executive_summary", "critical_issues", "recommended_actions", "tools_to_use"]

/-- One iteration of the required-keys loop of `_parse_claude_response`:
an absent key is appended with `"Analysis completed"` for the summary and
`[]` otherwise. -/
def fillStep (acc : Dict) (k : String) : Dict :=
  match acc.lookup k with
  | some _ => acc
  | none =>
      acc ++ [(k, if k = "executive_summary"
                  then Json.str "Analysis completed" else Json.arr [])]

/-- The required-keys loop of `_parse_claude_response`. -/
def fillRequired (d : Dict) : Dict :=
  requiredKeys.foldl fillStep d

/-- `BedrockAgentCore._parse_claude_response`. -/
def parse_claude_response : ClaudeResp → Dict
  | .noContent p => fallback_response p
  | .noText p => fallback_response p
  | .text raw parse pyStr =>
      match parse with
      | .direct fields => dictSet (fillRequired fields) "raw_response" (.str raw)
      | .directNonDict => fallback_response pyStr
      | .extract fields => dictSet (fillRequired fields) "raw_response" (.str raw)
      | .extractRaise => fallback_response pyStr
      | .noMatch => dictSet (fillRequired (textFallbackDict raw)) "raw_response" (.str raw)

/-- A critical-issue entry built by `_fallback_analysis` from one `ERROR`
finding. -/
def vulnToCritical (v : Vuln) : Json :=
  .obj [("title", .str v.rule_id),
        ("severity", .str "CRITICAL"),
        ("file", .str v.file),
        ("line", .num (v.line : Int)),
        ("description", .str v.message),
        ("business_impact", .str "Potential security risk requiring immediate attention"),
        ("recommended_fix",
          .str "Review and remediate the identified security issue according to best practices"),
        ("compliance_mapping", .arr [.str "OWASP", .str "SOC 2"])]

/-- `BedrockAgentCore._fallback_analysis`: a deterministic analysis built
from the scan's severity buckets (the repo context is unused by the
source's function body). -/
def fallback_analysis (scan : ScanOut) (_repo : RepoCtx) : Dict :=
  let critical_count := (scanErrList scan).length
  let warning_count := (scanWarnList scan).length
  [("executive_summary",
      .str s!"Automated fallback analysis: Found {critical_count} critical issues and {warning_count} warnings requiring attention."),
   ("critical_issues", .arr (((scanErrList scan).take 3).map vulnToCritical)),
   ("recommended_actions",
      .arr [.str "Review all critical security findings",
            .str "Implement recommended security fixes",
            .str "Run additional security tests",
            .str "Consider manual security review"]),
   ("tools_to_use",
      .arr [.obj [("tool", .str "create_github_issue"), ("priority", .num 1)],
            .obj [("tool", .str "log_to_vanta"), ("priority", .num 2)]])]

/-- `BedrockAgentCore.analyze_security_findings`: call the model and parse
its response; on any exception from the call, fall back to the deterministic
analysis.  (`_parse_claude_response` itself never raises: its own handler
returns `_fallback_response`.) -/
def analyze_security_findings (scan : ScanOut) (repo : RepoCtx)
    (b : ClaudeBehavior) : Dict :=
  match b with
  | .raised => fallback_analysis scan repo
  | .ok resp => parse_claude_response resp

/-- The type each required key must have according to the specification:
a string for the summary, a list for the other three. -/
def typeOkFor (k : String) (v : Json) : Bool :=
  if k = "executive_summary" then
    match v with | .str _ => true | _ => false
  else
    match v with | .arr _ => true | _ => false

/-- The JSON object the model itself supplied, when the response parsed (or
brace-extracted) to an object; `none` in every fallback branch. -/
def suppliedDict : ClaudeBehavior → Option Dict
  | .ok (.text _ (.direct fs) _) => some fs
  | .ok (.text _ (.extract fs) _) => some fs
  | _ => none

/-!  ### `github_handler.GitHubHandler` -/

/-- Python iteration/`len` count of one `by_severity` value inside the list
comprehension of `_generate_issue_title`: strings iterate per character,
arrays per element, objects per key; anything else raises `TypeError`. -/
def sumIterLens : List Json → Option Nat
  | [] => some 0
  | v :: vs =>
      match pyLen v, sumIterLens vs with
      | some n, some m => some (n + m)
      | _, _ => none

/-- `GitHubHandler._generate_issue_title`.  `none` models an exception
escaping the helper (caught by `create_security_issue`, which then reports
`success: False`): `len` of a non-sized `critical_issues` value, a
`by_severity` value that is not an object, or a non-iterable bucket. -/
def generate_issue_title (analysis : Dict) : Option String := do
  let critical_count ← pyLen (lookupD analysis "critical_issues" (.arr []))
  let total_findings ←
    if hasKey analysis "by_severity" then
      match analysis.lookup "by_severity" with
      | some (.obj fs) => sumIterLens (fs.map (·.2))
      | _ => none
    else
      pure critical_count
  if critical_count > 0 then
    pure s!"🚨 Security Alert: {critical_count} Critical Issues Found ({total_findings} total findings)"
  else
    pure s!"⚠️ Security Review: {total_findings} Security Issues Detected"

/-- Behaviour of the GitHub issue-creation API call inside
`create_security_issue`: the REST call returns a created issue, or raises
(`GithubException` or otherwise) — either way caught by the function. -/
inductive IssueApi where
  | ok (number : Nat) (url : String)
  | raises (err : String)
deriving DecidableEq

/-- The dict returned by `create_security_issue`. -/
structure IssueResult where
  success : Bool
  issue_number : Option Nat
  issue_url : Option String
  title : Option String
  error : Option String
deriving DecidableEq

/-- `GitHubHandler.create_security_issue`: generate the title (an exception
there is caught by the function's own handler and reported as a failure
dict), then perform the API call, whose exceptions are likewise converted
into `success: False` dicts.  The body template is product content with no
failure mode of its own beyond the fields already read for the title. -/
def create_security_issue (analysis : Dict) (api : IssueApi) : IssueResult :=
  match generate_issue_title analysis with
  | none =>
      { success := false, issue_number := none, issue_url := none,
        title := none, error := some "TypeError in issue generation" }
  | some t =>
      match api with
      | .ok n u =>
          { success := true, issue_number := some n, issue_url := some u,
            title := some t, error := none }
      | .raises e =>
          { success := false, issue_number := none, issue_url := none,
            title := none, error := some e }

/-- Outcome of `clone_repository` as the orchestrator reads it: a success
dict with `local_path`, or a failure dict with `error` (the function
catches every exception class it can see and returns a dict). -/
inductive CloneOutcome where
  | ok (local_path : String)
  | fail (error : String)
deriving DecidableEq

/-- One file's worth of model-generated fixes
(`\x7bfile_path, issue_type, changes\x7d`). -/
structure FileChange where
  file_path : String
  issue_type : String
  changes : List Change
deriving DecidableEq

/-- The dict returned by `generate_code_fixes` as the orchestrator reads
it (`BedrockAgentCore.generate_code_fixes` catches every exception and
returns a fallback dict, so the call is total). -/
structure CodeFixes where
  error : Option String
  file_changes : List FileChange
deriving DecidableEq

/-- The dict returned by `create_security_fix_pr` as the orchestrator reads
it (the function catches `GithubException` and `Exception`, so it is
total). -/
structure PrResult where
  success : Bool
  pr_number : Option Nat
  pr_url : Option String
  error : Option String
deriving DecidableEq

/-!  ### `database.DatabaseHandler` -/

/-- One row of the `scan_runs` table (the columns the orchestrator writes). -/
structure ScanRow where
  repo_name : String
  branch : String
  commit_sha : String
  scan_status : String
  total_findings : Nat
  critical_count : Nat
  high_count : Nat
  medium_count : Nat
  low_count : Nat
  scan_duration_seconds : Option Nat
deriving DecidableEq

/-- The persistence store: the `scan_runs` autoincrement counter and rows,
the `security_findings` rows, and the run ids holding `ai_analysis` /
`github_issues` rows. -/
structure DbState where
  nextId : Nat
  runs : List (Nat × ScanRow)
  findings : List (Nat × Vuln)
  analyses : List Nat
  issues : List (Nat × Nat)
deriving DecidableEq

/-- A store is well formed when every existing run id is below the
autoincrement counter (true of every real SQLite state). -/
def wfDb (db : DbState) : Prop :=
  ∀ p ∈ db.runs, p.1 < db.nextId

/-- `DatabaseHandler.create_scan_run`: insert a `running` row, return its
autoincrement id. -/
def create_scan_run (db : DbState) (repo_name branch commit_sha : String) :
    Nat × DbState :=
  (db.nextId,
   { db with
      nextId := db.nextId + 1
      runs := db.runs ++
        [(db.nextId,
          { repo_name := repo_name, branch := branch, commit_sha := commit_sha,
            scan_status := "running", total_findings := 0, critical_count := 0,
            high_count := 0, medium_count := 0, low_count := 0,
            scan_duration_seconds := none })] })

/-- The row-level effect of the UPDATE in `DatabaseHandler.update_scan_run`:
set the status, the total, the four per-severity columns read from
`finding_counts` with default 0, and the duration. -/
def applyRunUpdate (status : String) (total_findings : Nat)
    (finding_counts : List (String × Nat)) (duration : Option Nat)
    (row : ScanRow) : ScanRow :=
  { row with
      scan_status := status
      total_findings := total_findings
      critical_count := (finding_counts.lookup "ERROR").getD 0
      high_count := (finding_counts.lookup "WARNING").getD 0
      medium_count := (finding_counts.lookup "MEDIUM").getD 0
      low_count := (finding_counts.lookup "LOW").getD 0
      scan_duration_seconds := duration }

/-- `DatabaseHandler.update_scan_run`: one UPDATE of the row with the given
id.  Python's defaults are `total_findings=0`, `finding_counts=\x7b\x7d`,
`duration=None`; callers pass them explicitly here. -/
def update_scan_run (db : DbState) (scan_run_id : Nat) (status : String)
    (total_findings : Nat) (finding_counts : List (String × Nat))
    (duration : Option Nat) : DbState :=
  { db with
      runs := db.runs.map fun p =>
        if p.1 = scan_run_id then
          (p.1, applyRunUpdate status total_findings finding_counts duration p.2)
        else p }

/-- `DatabaseHandler.store_security_findings`: one INSERT per finding, in
list order. -/
def store_security_findings (db : DbState) (scan_run_id : Nat)
    (fs : List Vuln) : DbState :=
  { db with findings := db.findings ++ fs.map (Prod.mk scan_run_id) }

/-- `DatabaseHandler.store_ai_analysis` (one INSERT). -/
def store_ai_analysis (db : DbState) (scan_run_id : Nat) : DbState :=
  { db with analyses := db.analyses ++ [scan_run_id] }

/-- `DatabaseHandler.store_github_issue` (one INSERT; the function returns
without writing when the issue dict is not marked successful, and the
orchestrator also only calls it on success). -/
def store_github_issue (db : DbState) (scan_run_id : Nat) (issue_number : Nat) :
    DbState :=
  { db with issues := db.issues ++ [(scan_run_id, issue_number)] }

/-!  ### `orchestrator.WatchmanOrchestrator.process_github_webhook`

The pipeline is driven by an environment fixing the outcome of each
external call.  Calls whose Python implementations catch all of their own
exceptions (`analyze_security_findings`, `generate_code_fixes`,
`create_security_issue`, `create_security_fix_pr`, `cleanup_clone`) are
total here; calls that the orchestrator wraps in its own local
`try/except` and only logs (the three e-mail notifications,
`add_comment_to_issue`) cannot affect control flow beyond their call event,
exactly as in the source.
-/

/-- Observable side effects of one invocation, in program order. -/
inductive Event where
  | createRun (id : Nat)
  | cloneCall
  | scanCall (path : String)
  | storeFindingsEv (id : Nat) (count : Nat)
  | analyzeCall
  | storeAnalysisEv (id : Nat)
  | createIssueCall
  | storeIssueEv (id : Nat)
  | issueEmailCall
  | generateFixesCall
  | createPrCall
  | prEmailCall
  | addCommentCall
  | updateRunEv (id : Nat) (status : String)
  | cleanupCall (path : String)
  | summaryEmailCall
deriving DecidableEq

/-- The environment of one invocation: the webhook payload fields the
orchestrator reads, the explicit `branch`/`commit_sha` arguments, and the
behaviour of every external collaborator, plus the wall-clock values. -/
structure Env where
  repo_full_name : String
  payload_ref : Option String
  payload_after : Option String
  head_commit_message : Option String
  branch_arg : Option String
  commit_arg : Option String
  clone : CloneOutcome
  scan : ScanOut
  claude : ClaudeBehavior
  issue_api : IssueApi
  code_fix : CodeFixes
  pr_result : PrResult
  email_enabled : Bool
  start_time : Nat
  duration : Nat
  now_iso : String

/-- The dict `process_github_webhook` returns (fields of all three shapes:
skip, completed, failed; absent keys are `none`). -/
structure WorkflowResult where
  success : Bool
  workflow_id : String
  scan_run_id : Option Nat
  repo_name : String
  branch : String
  commit_sha : Option String
  message : Option String
  skipped_reason : Option String
  duration_seconds : Option Nat
  findings_total : Option Nat
  findings_critical : Option Nat
  findings_warnings : Option Nat
  findings_info : Option Nat
  github_issue : Option IssueResult
  security_fix_pr : Option PrResult
  analysis_summary : Option Json
  completed_at : Option String
  failed_at : Option String
  error : Option String

/-- Result, final store, and event trace of one invocation. -/
structure RunOut where
  result : WorkflowResult
  db : DbState
  events : List Event

/-- `branch = webhook_payload.get('ref', 'refs/heads/main').replace('refs/heads/', '')`. -/
def branchFromPayload (env : Env) : String :=
  pyReplace (env.payload_ref.getD "refs/heads/main") "refs/heads/" ""

/-- The effective branch: the argument when truthy, else the payload ref. -/
def effectiveBranch (env : Env) : String :=
  match env.branch_arg with
  | some b => if b = "" then branchFromPayload env else b
  | none => branchFromPayload env

/-- The effective commit sha: the argument when truthy, else
`webhook_payload.get('after', 'unknown')`. -/
def effectiveCommit (env : Env) : String :=
  match env.commit_arg with
  | some c => if c = "" then env.payload_after.getD "unknown" else c
  | none => env.payload_after.getD "unknown"

/-- `webhook_payload.get('head_commit', \x7b\x7d).get('message', '')`. -/
def effectiveCommitMessage (env : Env) : String :=
  env.head_commit_message.getD ""

/-- `f"scan_\x7bint(start_time)\x7d"`. -/
def workflowId (env : Env) : String :=
  "scan_" ++ toString env.start_time

/-- The `except Exception` handler of `process_github_webhook`: persist the
failure status (status `failed`, default zero counts, the measured
duration), clean the working copy up when the clone had succeeded, and
return the error dict. -/
def failPath (env : Env) (branch : String) (runId : Nat) (msg : String)
    (local_path : Option String) (db : DbState) (evs : List Event) : RunOut :=
  let db' := update_scan_run db runId "failed" 0 [] (some env.duration)
  let evs' := evs ++ [Event.updateRunEv runId "failed"] ++
    (match local_path with
     | some p => [Event.cleanupCall p]
     | none => [])
  { result :=
      { success := false
        workflow_id := workflowId env
        scan_run_id := some runId
        repo_name := env.repo_full_name
        branch := branch
        commit_sha := none
        message := none
        skipped_reason := none
        duration_seconds := some env.duration
        findings_total := none
        findings_critical := none
        findings_warnings := none
        findings_info := none
        github_issue := none
        security_fix_pr := none
        analysis_summary := none
        completed_at := none
        failed_at := some env.now_iso
        error := some msg }
    db := db'
    events := evs' }

/-- The tail of the success path: finalize the run row (`completed`, the
aggregate counts keyed `ERROR`/`WARNING`/`INFO`, the duration), clean up
the clone, attempt the summary notification, and build the result dict. -/
def finishRun (env : Env) (branch commit_sha local_path : String) (runId : Nat)
    (analysis : Dict) (issueRes : Option IssueResult) (prRes : Option PrResult)
    (db : DbState) (evs : List Event) : RunOut :=
  let ec := (scanErrList env.scan).length
  let wc := (scanWarnList env.scan).length
  let ic := (scanInfoList env.scan).length
  let counts := [("ERROR", ec), ("WARNING", wc), ("INFO", ic)]
  let db' := update_scan_run db runId "completed" (scanTotal env.scan) counts
    (some env.duration)
  let evs' := evs ++ [Event.updateRunEv runId "completed",
                      Event.cleanupCall local_path] ++
    (if env.email_enabled then [Event.summaryEmailCall] else [])
  { result :=
      { success := true
        workflow_id := workflowId env
        scan_run_id := some runId
        repo_name := env.repo_full_name
        branch := branch
        commit_sha := some (pyTake commit_sha 8)
        message := none
        skipped_reason := none
        duration_seconds := some env.duration
        findings_total := some (scanTotal env.scan)
        findings_critical := some ec
        findings_warnings := some wc
        findings_info := some ic
        github_issue := issueRes
        security_fix_pr := prRes
        analysis_summary := some (lookupD analysis "executive_summary" (.str ""))
        completed_at := some env.now_iso
        failed_at := none
        error := none }
    db := db'
    events := evs' }

/-- Step 4's issue result: the issue is filed only when the scan reported
findings; `create_security_issue` itself never raises. -/
def step4IssueRes (env : Env) (analysis : Dict) : Option IssueResult :=
  if 0 < scanTotal env.scan then
    some (create_security_issue analysis env.issue_api)
  else none

/-- Step 4's store effect: persist the issue row only on success (both the
orchestrator and `store_github_issue` itself check the success flag). -/
def step4Db (db3 : DbState) (runId : Nat) (issueRes : Option IssueResult) :
    DbState :=
  match issueRes with
  | some issue =>
      if issue.success then
        store_github_issue db3 runId (issue.issue_number.getD 0)
      else db3
  | none => db3

/-- Step 4's external calls: the issue-creation call, the issue row write,
and (when an e-mail handler exists) the issue notification attempt. -/
def step4Events (env : Env) (runId : Nat) (issueRes : Option IssueResult) :
    List Event :=
  match issueRes with
  | some issue =>
      if issue.success then
        [Event.createIssueCall, Event.storeIssueEv runId] ++
          (if env.email_enabled then [Event.issueEmailCall] else [])
      else [Event.createIssueCall]
  | none => []

/-- Step 5's PR result as the orchestrator's `pr_result` variable ends up:
set when the fix dict has no truthy error and non-empty `file_changes`
(the PR call is then attempted and never raises), `None` otherwise. -/
def step5PrRes (env : Env) : Option PrResult :=
  if !pyTruthyOptStr env.code_fix.error && !env.code_fix.file_changes.isEmpty
  then some env.pr_result
  else none

/-- Step 5's external calls: fix generation, then conditionally the PR
call, its notification, and the cross-link comment on a successfully filed
issue (comment and e-mail failures are caught by local handlers). -/
def step5Events (env : Env) (issueRes : Option IssueResult) : List Event :=
  [Event.generateFixesCall] ++
  (if !pyTruthyOptStr env.code_fix.error && !env.code_fix.file_changes.isEmpty
   then
    [Event.createPrCall] ++
      (if env.pr_result.success then
        (if env.email_enabled then [Event.prEmailCall] else []) ++
          (match issueRes with
           | some i => if i.success then [Event.addCommentCall] else []
           | none => [])
       else [])
   else [])

/-- The `try` body after a successful clone: scan (raising on a truthy
error), persist findings, analyse, persist the analysis, step 4, the
`critical_issues` gating with its two raising modes (`TypeError` on a
truthy unsized value; `UnboundLocalError` when the fix step runs with zero
findings so `scan_metadata` was never bound), step 5, and the finish. -/
def runAfterClone (env : Env) (branch commit_sha local_path : String)
    (runId : Nat) (db1 : DbState) (ev0 : List Event) : RunOut :=
  let ev1 := ev0 ++ [Event.scanCall local_path]
  if pyTruthyOptStr (scanError env.scan) then
    failPath env branch runId
      ("Security scan failed: " ++ (scanError env.scan).getD "")
      (some local_path) db1 ev1
  else
    let all_findings :=
      scanErrList env.scan ++ scanWarnList env.scan ++ scanInfoList env.scan
    let db2 := store_security_findings db1 runId all_findings
    let ev2 := ev1 ++ [Event.storeFindingsEv runId all_findings.length]
    let analysis := analyze_security_findings env.scan
      { repo_name := env.repo_full_name, branch := branch,
        commit_sha := commit_sha }
      env.claude
    let db3 := store_ai_analysis db2 runId
    let ev3 := ev2 ++ [Event.analyzeCall, Event.storeAnalysisEv runId]
    let issueRes := step4IssueRes env analysis
    let db4 := step4Db db3 runId issueRes
    let ev4 := ev3 ++ step4Events env runId issueRes
    let critical_issues := lookupD analysis "critical_issues" (.arr [])
    if pyTruthy critical_issues then
      match pyLen critical_issues with
      | none =>
          failPath env branch runId "TypeError: object has no len()"
            (some local_path) db4 ev4
      | some n =>
          if 0 < n then
            if 0 < scanTotal env.scan then
              finishRun env branch commit_sha local_path runId analysis
                issueRes (step5PrRes env) db4 (ev4 ++ step5Events env issueRes)
            else
              failPath env branch runId
                "UnboundLocalError: scan_metadata referenced before assignment"
                (some local_path) db4 ev4
          else
            finishRun env branch commit_sha local_path runId analysis
              issueRes none db4 ev4
    else
      finishRun env branch commit_sha local_path runId analysis
        issueRes none db4 ev4

/-- `WatchmanOrchestrator.process_github_webhook`, start to finish: loop
prevention, run-row creation, the `try` body (`runAfterClone`) and the
`except` handler (`failPath`).  The body can raise at exactly the places
the Python can: the two explicit `raise` statements (clone failure, truthy
scan error), the `len(critical_issues)` call on a truthy unsized value
(`TypeError`), and the `scan_metadata` reference in the fix step when the
scan reported zero findings (`UnboundLocalError`). -/
def process_github_webhook (env : Env) (db : DbState) : RunOut :=
  let branch := effectiveBranch env
  let commit_sha := effectiveCommit env
  if pyStartsWith branch "security-fixes-" then
    { result :=
        { success := true
          workflow_id := workflowId env
          scan_run_id := none
          repo_name := env.repo_full_name
          branch := branch
          commit_sha := none
          message := some "Skipped security fix branch to prevent loops"
          skipped_reason := some "security_fix_branch"
          duration_seconds := none
          findings_total := none
          findings_critical := none
          findings_warnings := none
          findings_info := none
          github_issue := none
          security_fix_pr := none
          analysis_summary := none
          completed_at := some env.now_iso
          failed_at := none
          error := none }
      db := db
      events := [] }
  else if pyStartsWith (pyLower (effectiveCommitMessage env)) "security:" then
    { result :=
        { success := true
          workflow_id := workflowId env
          scan_run_id := none
          repo_name := env.repo_full_name
          branch := branch
          commit_sha := some (pyTake commit_sha 8)
          message := some "Skipped security fix commit to prevent loops"
          skipped_reason := some "security_fix_commit"
          duration_seconds := none
          findings_total := none
          findings_critical := none
          findings_warnings := none
          findings_info := none
          github_issue := none
          security_fix_pr := none
          analysis_summary := none
          completed_at := some env.now_iso
          failed_at := none
          error := none }
      db := db
      events := [] }
  else
    match create_scan_run db env.repo_full_name branch commit_sha with
    | (runId, db1) =>
      match env.clone with
      | .fail cerr =>
          failPath env branch runId ("Failed to clone repository: " ++ cerr)
            none db1 [Event.createRun runId, Event.cloneCall]
      | .ok local_path =>
          runAfterClone env branch commit_sha local_path runId db1
            [Event.createRun runId, Event.cloneCall]

/-- Neither loop-prevention filter fires. -/
def passesLoopPrevention (env : Env) : Prop :=
  pyStartsWith (effectiveBranch env) "security-fixes-" = false ∧
  pyStartsWith (pyLower (effectiveCommitMessage env)) "security:" = false

/-- The clone step failed. -/
def cloneFailed (env : Env) : Prop :=
  ∃ e, env.clone = CloneOutcome.fail e

/-- The scan step failed (truthy `error` in the scan dict). -/
def scanFailed (env : Env) : Prop :=
  pyTruthyOptStr (scanError env.scan) = true

/-- The analysis dict the run computes (identical to the term inside
`process_github_webhook`). -/
def analysisOf (env : Env) : Dict :=
  analyze_security_findings env.scan
    { repo_name := env.repo_full_name, branch := effectiveBranch env,
      commit_sha := effectiveCommit env }
    env.claude

/-- The `critical_issues` value the gating reads. -/
def criticalOf (env : Env) : Json :=
  lookupD (analysisOf env) "critical_issues" (.arr [])

/-- The gating on `critical_issues` raises a `TypeError`: the value is
truthy but has no `len`. -/
def gateRaises (env : Env) : Prop :=
  pyTruthy (criticalOf env) = true ∧ pyLen (criticalOf env) = none

/-- The fix step raises `UnboundLocalError`: `critical_issues` is truthy
with positive length while the scan reported zero findings, so
`scan_metadata` was never assigned. -/
def metaRaises (env : Env) : Prop :=
  pyTruthy (criticalOf env) = true ∧
  (∃ n, pyLen (criticalOf env) = some n ∧ 0 < n) ∧
  scanTotal env.scan = 0

/-- Event selectors for the run-row writes. -/
def isCreateRunEv : Event → Bool
  | .createRun _ => true
  | _ => false

def isUpdateRunEv : Event → Bool
  | .updateRunEv _ _ => true
  | _ => false

/-- The post-clone body raises (boolean form): a truthy scan error, a
truthy unsized `critical_issues` value, or a positively-sized truthy
`critical_issues` with zero reported findings. -/
def bodyRaisesB (env : Env) (branch commit_sha : String) : Bool :=
  let cj := lookupD (analyze_security_findings env.scan
      { repo_name := env.repo_full_name, branch := branch,
        commit_sha := commit_sha } env.claude)
    "critical_issues" (.arr [])
  pyTruthyOptStr (scanError env.scan) ||
    (pyTruthy cj &&
      (match pyLen cj with
       | none => true
       | some n => decide (0 < n) && decide (scanTotal env.scan = 0)))

/-- A benign webhook environment used to instantiate the pipeline
theorems: a clean scan, a raised model call, no e-mail handler. -/
def baseEnv : Env :=
  { repo_full_name := "octo/app"
    payload_ref := some "refs/heads/main"
    payload_after := some "abc123def456"
    head_commit_message := some "Add feature"
    branch_arg := some "main"
    commit_arg := some "abc123def456"
    clone := .ok "/tmp/watchman_clone/app"
    scan := .ok ⟨0, [], [], [], "Found 0 critical, 0 warnings, 0 info"⟩
    claude := .raised
    issue_api := .ok 7 "https://github.com/octo/app/issues/7"
    code_fix := ⟨none, []⟩
    pr_result := ⟨false, none, none, some "not attempted"⟩
    email_enabled := false
    start_time := 1700000000
    duration := 12
    now_iso := "2026-10-12T00:00:00" }

/-- An empty, well-formed store. -/
def emptyDb : DbState := ⟨1, [], [], [], []⟩

/-- An environment whose scan reports one `ERROR` finding, analysed by the
deterministic fallback (so `critical_issues` is non-empty). -/
def criticalEnv : Env :=
  { baseEnv with
      scan := .ok ⟨1,
        [⟨"sql-injection", "SQLi", "app.py", 45, "s", "ERROR", [], []⟩],
        [], [], "Found 1 critical, 0 warnings, 0 info"⟩ }

/-- An environment whose scan succeeds with two `INFO` findings but whose
parsed model analysis binds `critical_issues` to the number 1, so the
gating raises after the findings were persisted. -/
def gateEnv : Env :=
  { baseEnv with
      scan := .ok ⟨2, [], [],
        [⟨"w1", "m", "a.py", 1, "", "INFO", [], []⟩,
         ⟨"w2", "m", "b.py", 2, "", "INFO", [], []⟩],
        "Found 0 critical, 0 warnings, 2 info"⟩
      claude := .ok (.text "t" (.direct [("critical_issues", Json.num 1)]) "p") }


/-!  ## Theorems -/

/-- The bucket-filling fold, characterised by filters: each bucket collects,
in order, exactly the findings whose normalized severity selects it. -/
theorem foldl_bucketStep_eq : ∀ (raw : List RawFinding) (e w i : List Vuln),
    raw.foldl bucketStep (e, w, i) =
      (e ++ ((raw.filter fun f => severityOf f == "ERROR").map mkVuln),
       w ++ ((raw.filter fun f =>
          !(severityOf f == "ERROR") && severityOf f == "WARNING").map mkVuln),
       i ++ ((raw.filter fun f =>
          !(severityOf f == "ERROR") && !(severityOf f == "WARNING")).map mkVuln))
  | [], e, w, i => by simp
  | f :: raw, e, w, i => by
      by_cases hE : severityOf f = "ERROR"
      · simp [bucketStep, hE, List.foldl_cons, foldl_bucketStep_eq raw]
      · by_cases hW : severityOf f = "WARNING"
        · simp [bucketStep, hE, hW, List.foldl_cons, foldl_bucketStep_eq raw]
        · simp [bucketStep, hE, hW, List.foldl_cons, foldl_bucketStep_eq raw]

/-- The three severity filters partition the raw findings list. -/
theorem filter3_partition (raw : List RawFinding) :
    (raw.filter fun f => severityOf f == "ERROR").length +
    (raw.filter fun f =>
        !(severityOf f == "ERROR") && severityOf f == "WARNING").length +
    (raw.filter fun f =>
        !(severityOf f == "ERROR") && !(severityOf f == "WARNING")).length
      = raw.length := by
  induction raw with
  | nil => simp
  | cons f raw ih =>
      by_cases hE : severityOf f = "ERROR"
      · simp [hE]; omega
      · by_cases hW : severityOf f = "WARNING"
        · simp [hE, hW]; omega
        · simp [hE, hW]; omega

/-- A severity outside the three bucket keys is normalized to `INFO`. -/
theorem severityOf_eq_INFO_of_unknown (f : RawFinding)
    (hE : pyUpper (f.extra_severity.getD "INFO") ≠ "ERROR")
    (hW : pyUpper (f.extra_severity.getD "INFO") ≠ "WARNING")
    (hI : pyUpper (f.extra_severity.getD "INFO") ≠ "INFO") :
    severityOf f = "INFO" := by
  unfold severityOf
  simp only []
  split
  · next h => rcases h with h | h | h <;> simp_all
  · rfl

/-- Claim C10: for every raw Semgrep output, `_process_findings` reports
`total_findings` equal to the length of the raw results list, sends every
finding whose uppercased severity is not `ERROR`/`WARNING`/`INFO` to the
`INFO` bucket, and the three bucket sizes sum to `total_findings`. -/
theorem C10_process_findings_invariants (raw : List RawFinding) :
    (process_findings raw).total_findings = raw.length ∧
    ((process_findings raw).sev_error.length +
      (process_findings raw).sev_warning.length +
      (process_findings raw).sev_info.length
        = (process_findings raw).total_findings) ∧
    (∀ f ∈ raw,
      pyUpper (f.extra_severity.getD "INFO") ≠ "ERROR" →
      pyUpper (f.extra_severity.getD "INFO") ≠ "WARNING" →
      pyUpper (f.extra_severity.getD "INFO") ≠ "INFO" →
      mkVuln f ∈ (process_findings raw).sev_info) := by
  refine ⟨rfl, ?_, ?_⟩
  · show (raw.foldl bucketStep ([], [], [])).1.length +
        (raw.foldl bucketStep ([], [], [])).2.1.length +
        (raw.foldl bucketStep ([], [], [])).2.2.length = raw.length
    rw [foldl_bucketStep_eq]
    simpa using filter3_partition raw
  · intro f hf hE hW hI
    show mkVuln f ∈ (raw.foldl bucketStep ([], [], [])).2.2
    rw [foldl_bucketStep_eq]
    simp only [List.nil_append, List.mem_map]
    refine ⟨f, ?_, rfl⟩
    rw [List.mem_filter]
    refine ⟨hf, ?_⟩
    have h := severityOf_eq_INFO_of_unknown f hE hW hI
    simp [h]

/-- Claim C10, instantiated: a batch with severities `error`, `Warning`, a
missing severity, and `CRITICAL` has total 4, buckets summing to 4, and the
`CRITICAL` finding lands in the `INFO` bucket. -/
theorem C10_witness :
    (process_findings
        [⟨some "r1", some "a.py", some 1, some "error", some "m", some "", [], []⟩,
         ⟨some "r2", some "b.py", some 2, some "Warning", some "m", some "", [], []⟩,
         ⟨some "r3", some "c.py", some 3, none, some "m", some "", [], []⟩,
         ⟨some "r4", some "d.py", some 4, some "CRITICAL", some "m", some "", [], []⟩]).total_findings = 4 ∧
    mkVuln ⟨some "r4", some "d.py", some 4, some "CRITICAL", some "m", some "", [], []⟩ ∈
      (process_findings
        [⟨some "r1", some "a.py", some 1, some "error", some "m", some "", [], []⟩,
         ⟨some "r2", some "b.py", some 2, some "Warning", some "m", some "", [], []⟩,
         ⟨some "r3", some "c.py", some 3, none, some "m", some "", [], []⟩,
         ⟨some "r4", some "d.py", some 4, some "CRITICAL", some "m", some "", [], []⟩]).sev_info := by
  have h := C10_process_findings_invariants
    [⟨some "r1", some "a.py", some 1, some "error", some "m", some "", [], []⟩,
     ⟨some "r2", some "b.py", some 2, some "Warning", some "m", some "", [], []⟩,
     ⟨some "r3", some "c.py", some 3, none, some "m", some "", [], []⟩,
     ⟨some "r4", some "d.py", some 4, some "CRITICAL", some "m", some "", [], []⟩]
  exact ⟨h.1, h.2.2 _ (by simp) (by decide) (by decide) (by decide)⟩

/-- For a valid 1-indexed range (`1 ≤ line_start ≤ line_end ≤ N`) the clamps
of `_apply_code_changes` are the identity and one replacement step keeps the
strict prefix before the range and the suffix after it. -/
theorem applyOne_eq_of_valid (lines : List String) (c : Change)
    (h1 : 0 < c.line_start) (h2 : c.line_start ≤ c.line_end)
    (h3 : c.line_end ≤ (lines.length : Int)) :
    applyOneChange lines c =
      lines.take (c.line_start.toNat - 1) ++ newCodeLines c ++
        lines.drop c.line_end.toNat := by
  have hs : startIdx lines.length c = c.line_start.toNat - 1 := by
    unfold startIdx
    simp only [max_def, min_def]
    split_ifs <;> omega
  have he : endIdx lines.length c = c.line_end.toNat - 1 := by
    unfold endIdx
    simp only [max_def, min_def]
    split_ifs <;> omega
  have he1 : endIdx lines.length c + 1 = c.line_end.toNat := by omega
  rw [applyOneChange, hs, he1]

/-- Replacement steps whose ranges lie inside a prefix `P` never look at
what follows `P`. -/
theorem foldl_applyOne_append : ∀ (cs : List Change) (P X : List String),
    (∀ c ∈ cs, 0 < c.line_start ∧ c.line_start ≤ c.line_end ∧
        c.line_end ≤ (P.length : Int)) →
    List.Pairwise (fun c d => d.line_end < c.line_start) cs →
    cs.foldl applyOneChange (P ++ X) = cs.foldl applyOneChange P ++ X
  | [], _, _, _, _ => rfl
  | c :: cs, P, X, hv, hp => by
      obtain ⟨h1, h2, h3⟩ := hv c (List.mem_cons_self c cs)
      have hlen : c.line_end ≤ ((P ++ X).length : Int) := by
        rw [List.length_append]; push_cast; omega
      have e1 := applyOne_eq_of_valid (P ++ X) c h1 h2 hlen
      have e2 := applyOne_eq_of_valid P c h1 h2 h3
      have htake : (P ++ X).take (c.line_start.toNat - 1) =
          P.take (c.line_start.toNat - 1) :=
        List.take_append_of_le_length (by omega)
      have hdrop : (P ++ X).drop c.line_end.toNat =
          P.drop c.line_end.toNat ++ X :=
        List.drop_append_of_le_length (by omega)
      have happ : applyOneChange (P ++ X) c = applyOneChange P c ++ X := by
        rw [e1, e2, htake, hdrop]
        simp [List.append_assoc]
      have hPlen' : (c.line_start.toNat - 1 : Int) ≤ ((applyOneChange P c).length : Int) := by
        rw [e2]
        simp only [List.length_append, List.length_take]
        push_cast
        omega
      have hv' : ∀ d ∈ cs, 0 < d.line_start ∧ d.line_start ≤ d.line_end ∧
          d.line_end ≤ ((applyOneChange P c).length : Int) := by
        intro d hd
        obtain ⟨k1, k2, k3⟩ := hv d (List.mem_cons_of_mem c hd)
        have hb := (List.pairwise_cons.mp hp).1 d hd
        exact ⟨k1, k2, by omega⟩
      calc (c :: cs).foldl applyOneChange (P ++ X)
          = cs.foldl applyOneChange (applyOneChange (P ++ X) c) := rfl
        _ = cs.foldl applyOneChange (applyOneChange P c ++ X) := by rw [happ]
        _ = cs.foldl applyOneChange (applyOneChange P c) ++ X :=
            foldl_applyOne_append cs (applyOneChange P c) X hv'
              (List.pairwise_cons.mp hp).2
        _ = (c :: cs).foldl applyOneChange P ++ X := rfl

/-- A list already in descending `line_start` order is left alone by the
stable sort. -/
theorem sortChangesDesc_eq_self : ∀ (cs : List Change),
    List.Pairwise (fun x y => y.line_start ≤ x.line_start) cs →
    sortChangesDesc cs = cs
  | [], _ => rfl
  | c :: cs, hp => by
      have ih := sortChangesDesc_eq_self cs (List.pairwise_cons.mp hp).2
      show insertDescByStart c (sortChangesDesc cs) = c :: cs
      rw [ih]
      cases cs with
      | nil => rfl
      | cons d ds =>
          have hd : d.line_start ≤ c.line_start :=
            (List.pairwise_cons.mp hp).1 d (List.mem_cons_self d ds)
          show (if d.line_start ≤ c.line_start then c :: d :: ds
                else d :: insertDescByStart c ds) = c :: d :: ds
          rw [if_pos hd]

/-- Applying a descending, pairwise-disjoint, in-bounds change set replaces
each range by its new lines and reassembles the untouched original segments
around them. -/
theorem foldl_eq_spliceDesc : ∀ (cs : List Change) (lines : List String),
    (∀ c ∈ cs, 0 < c.line_start ∧ c.line_start ≤ c.line_end ∧
        c.line_end ≤ (lines.length : Int)) →
    List.Pairwise (fun c d => d.line_end < c.line_start) cs →
    cs.foldl applyOneChange lines = spliceDesc lines cs
  | [], _, _, _ => rfl
  | c :: cs, lines, hv, hp => by
      obtain ⟨h1, h2, h3⟩ := hv c (List.mem_cons_self c cs)
      have e := applyOne_eq_of_valid lines c h1 h2 h3
      have hPlen : (lines.take (c.line_start.toNat - 1)).length =
          c.line_start.toNat - 1 := by
        rw [List.length_take]; omega
      have hv' : ∀ d ∈ cs, 0 < d.line_start ∧ d.line_start ≤ d.line_end ∧
          d.line_end ≤ ((lines.take (c.line_start.toNat - 1)).length : Int) := by
        intro d hd
        obtain ⟨k1, k2, k3⟩ := hv d (List.mem_cons_of_mem c hd)
        have hb := (List.pairwise_cons.mp hp).1 d hd
        rw [hPlen]
        exact ⟨k1, k2, by omega⟩
      have hp' := (List.pairwise_cons.mp hp).2
      calc (c :: cs).foldl applyOneChange lines
          = cs.foldl applyOneChange (applyOneChange lines c) := rfl
        _ = cs.foldl applyOneChange
              (lines.take (c.line_start.toNat - 1) ++
                (newCodeLines c ++ lines.drop c.line_end.toNat)) := by
            rw [e, List.append_assoc]
        _ = cs.foldl applyOneChange (lines.take (c.line_start.toNat - 1)) ++
              (newCodeLines c ++ lines.drop c.line_end.toNat) :=
            foldl_applyOne_append cs _ _ hv' hp'
        _ = spliceDesc (lines.take (c.line_start.toNat - 1)) cs ++
              (newCodeLines c ++ lines.drop c.line_end.toNat) := by
            rw [foldl_eq_spliceDesc cs _ hv' hp']
        _ = spliceDesc lines (c :: cs) := by
            show _ = spliceDesc (lines.take (c.line_start.toNat - 1)) cs ++
              newCodeLines c ++ lines.drop c.line_end.toNat
            rw [List.append_assoc]

/-- Claim C7: a single change with `1 ≤ a ≤ b ≤ N` replaces exactly the
1-indexed inclusive range `[a, b]` by the lines of `new_code`, keeping the
prefix `[1, a)` and the suffix `(b, N]`; and a pairwise non-overlapping
change set given in descending `line_start` order rebuilds the file from
the untouched original segments interleaved with the replacement blocks, so
every line outside the changed ranges survives unchanged. -/
theorem C7_apply_code_changes_correct :
    (∀ (lines : List String) (a b : Nat) (code : String),
      1 ≤ a → a ≤ b → b ≤ lines.length →
      applyChangesLines lines [⟨(a : Int), (b : Int), code⟩] =
        lines.take (a - 1) ++ newCodeLines ⟨(a : Int), (b : Int), code⟩ ++
          lines.drop b) ∧
    (∀ (lines : List String) (cs : List Change),
      (∀ c ∈ cs, 0 < c.line_start ∧ c.line_start ≤ c.line_end ∧
          c.line_end ≤ (lines.length : Int)) →
      List.Pairwise (fun c d => d.line_end < c.line_start) cs →
      applyChangesLines lines cs = spliceDesc lines cs) := by
  constructor
  · intro lines a b code h1 h2 h3
    have h := applyOne_eq_of_valid lines ⟨(a : Int), (b : Int), code⟩
      (by show (0 : Int) < (a : Int); exact_mod_cast h1)
      (by show (a : Int) ≤ (b : Int); exact_mod_cast h2)
      (by show (b : Int) ≤ (lines.length : Int); exact_mod_cast h3)
    simpa [applyChangesLines, sortChangesDesc, insertDescByStart] using h
  · intro lines cs hv hp
    have hsorted : List.Pairwise (fun x y => y.line_start ≤ x.line_start) cs := by
      refine List.Pairwise.imp_of_mem ?_ hp
      intro c d hc hd hcd
      have := (hv d hd).2.1
      omega
    rw [applyChangesLines, sortChangesDesc_eq_self cs hsorted]
    exact foldl_eq_spliceDesc cs lines hv hp

/-- Claim C7, instantiated: replacing lines 2–3 of a four-line file by a
two-line block, and applying two disjoint descending changes to a five-line
file. -/
theorem C7_witness :
    applyChangesLines ["a", "b", "c", "d"] [⟨2, 3, "X\nY"⟩] =
      ["a", "b", "c", "d"].take 1 ++ newCodeLines ⟨2, 3, "X\nY"⟩ ++
        ["a", "b", "c", "d"].drop 3 ∧
    applyChangesLines ["a", "b", "c", "d", "e"] [⟨4, 4, "W"⟩, ⟨1, 2, "Z"⟩] =
      spliceDesc ["a", "b", "c", "d", "e"] [⟨4, 4, "W"⟩, ⟨1, 2, "Z"⟩] := by
  constructor
  · exact C7_apply_code_changes_correct.1 ["a", "b", "c", "d"] 2 3 "X\nY"
      (by decide) (by decide) (by decide)
  · exact C7_apply_code_changes_correct.2 ["a", "b", "c", "d", "e"]
      [⟨4, 4, "W"⟩, ⟨1, 2, "Z"⟩] (by decide) (by decide)

/-- Looking a key up in a concatenation: the left dict wins. -/
theorem lookup_append (d e : Dict) (k : String) :
    (d ++ e).lookup k =
      match d.lookup k with
      | some v => some v
      | none => e.lookup k := by
  induction d with
  | nil => rfl
  | cons p d ih =>
      obtain ⟨pk, pv⟩ := p
      by_cases h : k == pk
      · simp [List.lookup, h]
      · simp [List.lookup, h, ih]

/-- Writing one key leaves every other key's lookup unchanged. -/
theorem lookup_dictSet_ne (d : Dict) (k k' : String) (v : Json) (h : k ≠ k') :
    (dictSet d k' v).lookup k = d.lookup k := by
  induction d with
  | nil => simp [dictSet, List.lookup, show (k == k') = false by simpa using h]
  | cons p d ih =>
      obtain ⟨pk, pv⟩ := p
      by_cases hk : pk = k'
      · subst hk
        simp [dictSet, List.lookup, show (k == pk) = false by simpa using h]
      · by_cases hpk : k == pk
        · simp [dictSet, hk, List.lookup, hpk]
        · simp [dictSet, hk, List.lookup, hpk, ih]

/-- One fill step keeps every present binding. -/
theorem lookup_fillStep_of_present (d : Dict) (k k' : String) (v : Json)
    (h : d.lookup k = some v) : (fillStep d k').lookup k = some v := by
  unfold fillStep
  cases hd : d.lookup k' with
  | some _ => exact h
  | none => rw [lookup_append, h]

/-- The whole fill loop keeps every present binding. -/
theorem lookup_fillFold_of_present : ∀ (ks : List String) (d : Dict)
    (k : String) (v : Json), d.lookup k = some v →
    (ks.foldl fillStep d).lookup k = some v
  | [], _, _, _, h => h
  | k' :: ks, d, k, v, h =>
      lookup_fillFold_of_present ks (fillStep d k') k v
        (lookup_fillStep_of_present d k k' v h)

/-- A fill step for a different key leaves a key's lookup unchanged. -/
theorem lookup_fillStep_ne (d : Dict) (k k' : String) (h : k ≠ k') :
    (fillStep d k').lookup k = d.lookup k := by
  unfold fillStep
  cases hd : d.lookup k' with
  | some _ => rfl
  | none =>
      rw [lookup_append]
      cases hk : d.lookup k with
      | some _ => rfl
      | none =>
          simp [List.lookup, show (k == k') = false by simpa using h]

/-- After the fill loop, every listed missing key is bound to its typed
default. -/
theorem lookup_fillFold_of_absent : ∀ (ks : List String) (d : Dict)
    (k : String), k ∈ ks → d.lookup k = none →
    (ks.foldl fillStep d).lookup k =
      some (if k = "executive_summary" then Json.str "Analysis completed"
            else Json.arr []) := by
  intro ks
  induction ks with
  | nil => intro d k hk; exact absurd hk (List.not_mem_nil k)
  | cons k' ks ih =>
      intro d k hk hnone
      by_cases hkk : k = k'
      · subst hkk
        have hstep : (fillStep d k).lookup k =
            some (if k = "executive_summary" then Json.str "Analysis completed"
                  else Json.arr []) := by
          unfold fillStep
          rw [hnone, lookup_append, hnone]
          simp [List.lookup]
        exact lookup_fillFold_of_present ks (fillStep d k) k _ hstep
      · rcases List.mem_cons.mp hk with h | h
        · exact absurd h hkk
        · exact ih (fillStep d k') k h
            (by rw [lookup_fillStep_ne d k k' hkk]; exact hnone)

/-- Unfolding membership in the required-keys list. -/
theorem mem_requiredKeys_iff (k : String) :
    k ∈ requiredKeys ↔ k = "executive_summary" ∨ k = "critical_issues" ∨
      k = "recommended_actions" ∨ k = "tools_to_use" := by
  simp [requiredKeys]

/-- No required key is `raw_response`. -/
theorem requiredKeys_ne_raw (k : String) (hk : k ∈ requiredKeys) :
    k ≠ "raw_response" := by
  rcases (mem_requiredKeys_iff k).mp hk with rfl | rfl | rfl | rfl <;> decide

/-- In a parsed-object branch every required key ends up present. -/
theorem parsed_branch_present (base : Dict) (raw : String) (k : String)
    (hk : k ∈ requiredKeys) :
    ((dictSet (fillRequired base) "raw_response" (.str raw)).lookup k).isSome
      = true := by
  rw [lookup_dictSet_ne _ _ _ _ (requiredKeys_ne_raw k hk)]
  unfold fillRequired
  cases hbase : base.lookup k with
  | some v =>
      rw [lookup_fillFold_of_present requiredKeys base k v hbase]; rfl
  | none =>
      rw [lookup_fillFold_of_absent requiredKeys base k hk hbase]; rfl

/-- In a parsed-object branch every required key the model left out gets
its typed default. -/
theorem parsed_branch_default (base : Dict) (raw : String) (k : String)
    (hk : k ∈ requiredKeys) (hnone : base.lookup k = none) :
    (dictSet (fillRequired base) "raw_response" (.str raw)).lookup k =
      some (if k = "executive_summary" then Json.str "Analysis completed"
            else Json.arr []) := by
  rw [lookup_dictSet_ne _ _ _ _ (requiredKeys_ne_raw k hk)]
  unfold fillRequired
  exact lookup_fillFold_of_absent requiredKeys base k hk hnone

/-- When the base dict already binds every required key with the right
type, so does the filled dict with `raw_response` added. -/
theorem parsed_branch_types (base : Dict) (raw : String)
    (hbase : ∀ k ∈ requiredKeys, ∃ v, base.lookup k = some v ∧
      typeOkFor k v = true) :
    ∀ k ∈ requiredKeys,
      ∃ v, (dictSet (fillRequired base) "raw_response" (.str raw)).lookup k
        = some v ∧ typeOkFor k v = true := by
  intro k hk
  obtain ⟨v, hv, ht⟩ := hbase k hk
  exact ⟨v, by
    rw [lookup_dictSet_ne _ _ _ _ (requiredKeys_ne_raw k hk)]
    unfold fillRequired
    exact lookup_fillFold_of_present requiredKeys base k v hv, ht⟩

/-- `_fallback_response` binds all four required keys with the right types. -/
theorem fallback_response_types (p : String) :
    ∀ k ∈ requiredKeys, ∃ v, (fallback_response p).lookup k = some v ∧
      typeOkFor k v = true := by
  intro k hk
  rcases (mem_requiredKeys_iff k).mp hk with rfl | rfl | rfl | rfl
  · exact ⟨_, rfl, rfl⟩
  · exact ⟨_, rfl, rfl⟩
  · exact ⟨_, rfl, rfl⟩
  · exact ⟨_, rfl, rfl⟩

/-- The text-derived structure binds all four required keys with the right
types. -/
theorem textFallbackDict_types (raw : String) :
    ∀ k ∈ requiredKeys, ∃ v, (textFallbackDict raw).lookup k = some v ∧
      typeOkFor k v = true := by
  intro k hk
  rcases (mem_requiredKeys_iff k).mp hk with rfl | rfl | rfl | rfl
  · exact ⟨_, rfl, rfl⟩
  · exact ⟨_, rfl, rfl⟩
  · exact ⟨_, rfl, rfl⟩
  · exact ⟨_, rfl, rfl⟩

/-- `_fallback_analysis` binds all four required keys with the right types. -/
theorem fallback_analysis_types (scan : ScanOut) (repo : RepoCtx) :
    ∀ k ∈ requiredKeys, ∃ v, (fallback_analysis scan repo).lookup k = some v ∧
      typeOkFor k v = true := by
  intro k hk
  rcases (mem_requiredKeys_iff k).mp hk with rfl | rfl | rfl | rfl
  · exact ⟨_, rfl, rfl⟩
  · exact ⟨_, rfl, rfl⟩
  · exact ⟨_, rfl, rfl⟩
  · exact ⟨_, rfl, rfl⟩

/-- Claim C6 as stated is false at a concrete model behaviour: when the
model's JSON parses to the object binding `critical_issues` to the number
`0`, the returned analysis keeps that number, so the `critical_issues` key
is present but is not a list. -/
theorem C6_counterexample :
    (analyze_security_findings
        (ScanOut.ok ⟨0, [], [], [], "Found 0 critical, 0 warnings, 0 info"⟩)
        ⟨"octo/app", "main", "abc123"⟩
        (.ok (.text "resp-text" (.direct [("critical_issues", Json.num 0)])
          "pystr"))).lookup "critical_issues" = some (Json.num 0) ∧
    typeOkFor "critical_issues" (Json.num 0) = false := by
  exact ⟨rfl, rfl⟩

/-- Claim C6, amended: for every scan result, repo context and behaviour of
the model call, `analyze_security_findings` never raises and its result
binds all four required keys; in every fallback branch (call exception,
missing content, non-object JSON, unextractable text) all four values also
have the specified types; and in the parsed-object branches each required
key the model did not supply is filled with its correctly-typed default,
while a key the model did supply keeps the model's value, whatever its
type. -/
theorem C6_analysis_totality (scan : ScanOut) (repo : RepoCtx)
    (b : ClaudeBehavior) :
    (∀ k ∈ requiredKeys,
      ((analyze_security_findings scan repo b).lookup k).isSome = true) ∧
    (suppliedDict b = none →
      ∀ k ∈ requiredKeys, ∃ v,
        (analyze_security_findings scan repo b).lookup k = some v ∧
        typeOkFor k v = true) ∧
    (∀ fs, suppliedDict b = some fs →
      ∀ k ∈ requiredKeys, fs.lookup k = none →
      (analyze_security_findings scan repo b).lookup k =
        some (if k = "executive_summary" then Json.str "Analysis completed"
              else Json.arr [])) := by
  match b with
  | .raised =>
      refine ⟨?_, fun _ => fallback_analysis_types scan repo, ?_⟩
      · intro k hk
        obtain ⟨v, hv, _⟩ := fallback_analysis_types scan repo k hk
        simp [analyze_security_findings, hv]
      · intro fs h; simp [suppliedDict] at h
  | .ok (.noContent p) =>
      refine ⟨?_, fun _ => fallback_response_types p, ?_⟩
      · intro k hk
        obtain ⟨v, hv, _⟩ := fallback_response_types p k hk
        simp [analyze_security_findings, parse_claude_response, hv]
      · intro fs h; simp [suppliedDict] at h
  | .ok (.noText p) =>
      refine ⟨?_, fun _ => fallback_response_types p, ?_⟩
      · intro k hk
        obtain ⟨v, hv, _⟩ := fallback_response_types p k hk
        simp [analyze_security_findings, parse_claude_response, hv]
      · intro fs h; simp [suppliedDict] at h
  | .ok (.text raw .directNonDict p) =>
      refine ⟨?_, fun _ => fallback_response_types p, ?_⟩
      · intro k hk
        obtain ⟨v, hv, _⟩ := fallback_response_types p k hk
        simp [analyze_security_findings, parse_claude_response, hv]
      · intro fs h; simp [suppliedDict] at h
  | .ok (.text raw .extractRaise p) =>
      refine ⟨?_, fun _ => fallback_response_types p, ?_⟩
      · intro k hk
        obtain ⟨v, hv, _⟩ := fallback_response_types p k hk
        simp [analyze_security_findings, parse_claude_response, hv]
      · intro fs h; simp [suppliedDict] at h
  | .ok (.text raw .noMatch p) =>
      refine ⟨?_, fun _ => parsed_branch_types _ raw (textFallbackDict_types raw), ?_⟩
      · intro k hk
        exact parsed_branch_present (textFallbackDict raw) raw k hk
      · intro fs h; simp [suppliedDict] at h
  | .ok (.text raw (.direct fields) p) =>
      refine ⟨?_, ?_, ?_⟩
      · intro k hk
        exact parsed_branch_present fields raw k hk
      · intro h; simp [suppliedDict] at h
      · intro fs h k hk hnone
        have hfs : fs = fields := by simpa [suppliedDict] using h.symm
        subst hfs
        exact parsed_branch_default fs raw k hk hnone
  | .ok (.text raw (.extract fields) p) =>
      refine ⟨?_, ?_, ?_⟩
      · intro k hk
        exact parsed_branch_present fields raw k hk
      · intro h; simp [suppliedDict] at h
      · intro fs h k hk hnone
        have hfs : fs = fields := by simpa [suppliedDict] using h.symm
        subst hfs
        exact parsed_branch_default fs raw k hk hnone

/-- Claim C6's amended statement, instantiated at two concrete behaviours:
a raised model call keeps all four keys present and typed; a parsed object
that omits `recommended_actions` gets the typed default. -/
theorem C6_witness :
    (∃ v, (analyze_security_findings
        (ScanOut.ok ⟨1,
          [⟨"sql-injection", "SQLi", "app.py", 45, "snippet", "ERROR", [], []⟩],
          [], [], "Found 1 critical, 0 warnings, 0 info"⟩)
        ⟨"octo/app", "main", "abc123"⟩ ClaudeBehavior.raised).lookup
          "critical_issues" = some v ∧ typeOkFor "critical_issues" v = true) ∧
    (analyze_security_findings
        (ScanOut.ok ⟨0, [], [], [], "Found 0 critical, 0 warnings, 0 info"⟩)
        ⟨"octo/app", "main", "abc123"⟩
        (.ok (.text "t" (.direct [("critical_issues", Json.arr [])]) "p"))).lookup
      "recommended_actions" = some (Json.arr []) := by
  constructor
  · exact (C6_analysis_totality
      (ScanOut.ok ⟨1,
        [⟨"sql-injection", "SQLi", "app.py", 45, "snippet", "ERROR", [], []⟩],
        [], [], "Found 1 critical, 0 warnings, 0 info"⟩)
      ⟨"octo/app", "main", "abc123"⟩ ClaudeBehavior.raised).2.1 rfl
      "critical_issues" (by simp [requiredKeys])
  · have h := (C6_analysis_totality
      (ScanOut.ok ⟨0, [], [], [], "Found 0 critical, 0 warnings, 0 info"⟩)
      ⟨"octo/app", "main", "abc123"⟩
      (.ok (.text "t" (.direct [("critical_issues", Json.arr [])]) "p"))).2.2
      [("critical_issues", Json.arr [])] rfl "recommended_actions"
      (by simp [requiredKeys]) rfl
    simpa using h

/-- Claim C8, amended: for an analysis dict whose `critical_issues` is a
list and which carries no `by_severity` key — true of everything
`analyze_security_findings` produces on its fallback paths — the title's
second number is the critical-issue count again, not the run's total
findings count: a non-empty list yields the alert form with the critical
count in both positions, an empty list yields the review form with 0. -/
theorem C8_issue_title_amended (d : Dict) (xs : List Json)
    (hcrit : d.lookup "critical_issues" = some (Json.arr xs))
    (hnosev : hasKey d "by_severity" = false) :
    generate_issue_title d =
      some (if 0 < xs.length then
        s!"🚨 Security Alert: {xs.length} Critical Issues Found ({xs.length} total findings)"
      else "⚠️ Security Review: 0 Security Issues Detected") := by
  unfold generate_issue_title
  rw [show lookupD d "critical_issues" (.arr []) = Json.arr xs by
    simp [lookupD, hcrit]]
  rw [hnosev]
  by_cases h : 0 < xs.length
  · simp only [pyLen, Option.bind, if_pos h]
    simp [h, Nat.pos_iff_ne_zero.mp h]
  · have h0 : xs.length = 0 := by omega
    simp only [pyLen, Option.bind, h0]
    rfl

/-- Claim C8 as stated is false at a concrete run: a scan with 5 total
findings (1 `ERROR`, 4 `WARNING`) analysed by the deterministic fallback
produces the alert title whose second number is 1 (the critical count) —
the analysis dict has no `by_severity` key, so `_generate_issue_title`
falls back to the critical count instead of the run's total. -/
theorem C8_counterexample :
    generate_issue_title
      (analyze_security_findings
        (ScanOut.ok ⟨5,
          [⟨"sql-injection", "SQLi", "app.py", 45, "s", "ERROR", [], []⟩],
          [⟨"w1", "m", "a.py", 1, "", "WARNING", [], []⟩,
           ⟨"w2", "m", "b.py", 2, "", "WARNING", [], []⟩,
           ⟨"w3", "m", "c.py", 3, "", "WARNING", [], []⟩,
           ⟨"w4", "m", "d.py", 4, "", "WARNING", [], []⟩],
          [], "Found 1 critical, 4 warnings, 0 info"⟩)
        ⟨"octo/app", "main", "abc123"⟩ ClaudeBehavior.raised) =
      some "🚨 Security Alert: 1 Critical Issues Found (1 total findings)" ∧
    scanTotal (ScanOut.ok ⟨5,
          [⟨"sql-injection", "SQLi", "app.py", 45, "s", "ERROR", [], []⟩],
          [⟨"w1", "m", "a.py", 1, "", "WARNING", [], []⟩,
           ⟨"w2", "m", "b.py", 2, "", "WARNING", [], []⟩,
           ⟨"w3", "m", "c.py", 3, "", "WARNING", [], []⟩,
           ⟨"w4", "m", "d.py", 4, "", "WARNING", [], []⟩],
          [], "Found 1 critical, 4 warnings, 0 info"⟩) = 5 ∧
    "🚨 Security Alert: 1 Critical Issues Found (1 total findings)" ≠
      "🚨 Security Alert: 1 Critical Issues Found (5 total findings)" := by
  refine ⟨rfl, rfl, by decide⟩

/-- Claim C8's amended statement, instantiated: one critical issue and no
`by_severity` key gives the alert title with 1 in both positions. -/
theorem C8_witness :
    generate_issue_title [("critical_issues", Json.arr [Json.obj []])] =
      some "🚨 Security Alert: 1 Critical Issues Found (1 total findings)" := by
  rw [C8_issue_title_amended [("critical_issues", Json.arr [Json.obj []])]
    [Json.obj []] rfl rfl]
  rfl



/-- Claim C1: whenever the branch starts with `security-fixes-` or the
head-commit message starts (case-insensitively) with `security:`, the
orchestrator returns a success-shaped skip result carrying the matching
reason tag (`security_fix_branch` when the branch filter fires, otherwise
`security_fix_commit`), before `create_scan_run` and before any external
call: the store is untouched and the event trace is empty. -/
theorem C1_loop_prevention_skips (env : Env) (db : DbState)
    (h : pyStartsWith (effectiveBranch env) "security-fixes-" = true ∨
         (pyStartsWith (effectiveBranch env) "security-fixes-" = false ∧
          pyStartsWith (pyLower (effectiveCommitMessage env)) "security:" = true)) :
    (process_github_webhook env db).result.success = true ∧
    (process_github_webhook env db).result.skipped_reason =
      some (if pyStartsWith (effectiveBranch env) "security-fixes-"
            then "security_fix_branch" else "security_fix_commit") ∧
    (process_github_webhook env db).events = [] ∧
    (process_github_webhook env db).db = db := by
  rcases h with h | ⟨h1, h2⟩
  · simp [process_github_webhook, h]
  · simp [process_github_webhook, h1, h2]

/-- Claim C1, instantiated: a push on `security-fixes-20240101-000000` is
skipped with reason `security_fix_branch`, no store write, no event; a push
whose head-commit message is `Security: patch xss` is skipped with reason
`security_fix_commit`. -/
theorem C1_witness :
    ((process_github_webhook
        { baseEnv with branch_arg := some "security-fixes-20240101-000000" }
        emptyDb).result.success = true ∧
     (process_github_webhook
        { baseEnv with branch_arg := some "security-fixes-20240101-000000" }
        emptyDb).result.skipped_reason = some "security_fix_branch" ∧
     (process_github_webhook
        { baseEnv with branch_arg := some "security-fixes-20240101-000000" }
        emptyDb).events = [] ∧
     (process_github_webhook
        { baseEnv with branch_arg := some "security-fixes-20240101-000000" }
        emptyDb).db = emptyDb) ∧
    (process_github_webhook
        { baseEnv with head_commit_message := some "Security: patch xss" }
        emptyDb).result.skipped_reason = some "security_fix_commit" := by
  constructor
  · have h := C1_loop_prevention_skips
      { baseEnv with branch_arg := some "security-fixes-20240101-000000" }
      emptyDb (Or.inl rfl)
    simpa using h
  · have h := C1_loop_prevention_skips
      { baseEnv with head_commit_message := some "Security: patch xss" }
      emptyDb (Or.inr ⟨rfl, rfl⟩)
    simpa using h.2.1

/-- The working copy is cleaned up on every exit path of the post-clone
body: both `failPath` exits carry the path, and `finishRun` always cleans. -/
theorem cleanup_in_runAfterClone (env : Env) (branch commit_sha local_path : String)
    (runId : Nat) (db1 : DbState) (ev0 : List Event) :
    Event.cleanupCall local_path ∈
      (runAfterClone env branch commit_sha local_path runId db1 ev0).events := by
  unfold runAfterClone
  repeat' (first | split | dsimp only)
  all_goals simp [failPath, finishRun]

/-- Claim C4: in every invocation that passes loop prevention and whose
clone step succeeds, `cleanup_clone` is invoked on that working copy on
every exit path — the success path and every raising path of the later
steps (scan failure, the `TypeError` of the `critical_issues` gating, the
`UnboundLocalError` of the fix step). -/
theorem C4_cleanup_guarantee (env : Env) (db : DbState) (p : String)
    (hpass : passesLoopPrevention env)
    (hclone : env.clone = CloneOutcome.ok p) :
    Event.cleanupCall p ∈ (process_github_webhook env db).events := by
  obtain ⟨hb, hm⟩ := hpass
  unfold process_github_webhook
  simp only [hb, hm, Bool.false_eq_true, if_false, hclone]
  apply cleanup_in_runAfterClone

/-- Claim C4, instantiated: the benign environment's working copy is
cleaned up. -/
theorem C4_witness :
    Event.cleanupCall "/tmp/watchman_clone/app" ∈
      (process_github_webhook baseEnv emptyDb).events :=
  C4_cleanup_guarantee baseEnv emptyDb "/tmp/watchman_clone/app"
    ⟨rfl, rfl⟩ rfl



/-- Updating a fresh id rewrites exactly the appended row. -/
theorem map_update_append (l : List (Nat × ScanRow)) (rid : Nat) (row : ScanRow)
    (f : ScanRow → ScanRow) (h : ∀ p ∈ l, p.1 ≠ rid) :
    (l ++ [(rid, row)]).map (fun q => if q.1 = rid then (q.1, f q.2) else q) =
      l ++ [(rid, f row)] := by
  induction l with
  | nil => simp
  | cons p l ih =>
      simp only [List.cons_append, List.map_cons]
      rw [if_neg (h p (List.mem_cons_self p l)),
        ih (fun q hq => h q (List.mem_cons_of_mem p hq))]

/-- Step 4 never touches the `scan_runs` table. -/
theorem step4Db_runs (db3 : DbState) (runId : Nat) (i : Option IssueResult) :
    (step4Db db3 runId i).runs = db3.runs := by
  unfold step4Db
  repeat' split
  all_goals rfl

/-- Step 4 never touches the `security_findings` table. -/
theorem step4Db_findings (db3 : DbState) (runId : Nat) (i : Option IssueResult) :
    (step4Db db3 runId i).findings = db3.findings := by
  unfold step4Db
  repeat' split
  all_goals rfl

/-- Step 4 issues no run-row write. -/
theorem step4Events_filters (env : Env) (runId : Nat) (i : Option IssueResult) :
    (step4Events env runId i).filter isCreateRunEv = [] ∧
    (step4Events env runId i).filter isUpdateRunEv = [] := by
  unfold step4Events
  repeat' split
  all_goals exact ⟨rfl, rfl⟩

/-- Step 5 issues no run-row write. -/
theorem step5Events_filters (env : Env) (i : Option IssueResult) :
    (step5Events env i).filter isCreateRunEv = [] ∧
    (step5Events env i).filter isUpdateRunEv = [] := by
  unfold step5Events
  repeat' split
  all_goals exact ⟨rfl, rfl⟩

/-- The post-clone body always ends in exactly one `update_scan_run` with a
terminal status, applied to a store whose `scan_runs` rows are those it was
given. -/
theorem runAfterClone_db_runs (env : Env)
    (branch commit_sha local_path : String) (runId : Nat) (db1 : DbState)
    (ev0 : List Event) :
    ∃ (status : String) (tf : Nat) (counts : List (String × Nat)),
      (status = "completed" ∨ status = "failed") ∧
      (runAfterClone env branch commit_sha local_path runId db1 ev0).db.runs =
        db1.runs.map (fun q => if q.1 = runId then
          (q.1, applyRunUpdate status tf counts (some env.duration) q.2)
          else q) := by
  unfold runAfterClone
  repeat' (first | split | dsimp only)
  all_goals first
    | (refine ⟨"failed", 0, [], Or.inr rfl, ?_⟩
       simp [failPath, update_scan_run, step4Db_runs, store_ai_analysis,
         store_security_findings]
       done)
    | (refine ⟨"completed", scanTotal env.scan,
         [("ERROR", (scanErrList env.scan).length),
          ("WARNING", (scanWarnList env.scan).length),
          ("INFO", (scanInfoList env.scan).length)], Or.inl rfl, ?_⟩
       simp [finishRun, update_scan_run, step4Db_runs, store_ai_analysis,
         store_security_findings])

/-- When the body does not raise, the one `update_scan_run` is the
finalize step's: status `completed`, the scan's total, and the three
severity-bucket counts. -/
theorem runAfterClone_db_runs_of_ok (env : Env)
    (branch commit_sha local_path : String) (runId : Nat) (db1 : DbState)
    (ev0 : List Event) (hr : bodyRaisesB env branch commit_sha = false) :
    (runAfterClone env branch commit_sha local_path runId db1 ev0).db.runs =
      db1.runs.map (fun q => if q.1 = runId then
        (q.1, applyRunUpdate "completed" (scanTotal env.scan)
          [("ERROR", (scanErrList env.scan).length),
           ("WARNING", (scanWarnList env.scan).length),
           ("INFO", (scanInfoList env.scan).length)]
          (some env.duration) q.2) else q) := by
  unfold bodyRaisesB at hr
  unfold runAfterClone
  repeat' (first | split | dsimp only)
  all_goals first
    | (simp [finishRun, update_scan_run, step4Db_runs, store_ai_analysis,
        store_security_findings]
       done)
    | (exfalso
       simp_all)

/-- The post-clone body makes no further `create_scan_run` call and exactly
one `update_scan_run` call. -/
theorem runAfterClone_events_filters (env : Env)
    (branch commit_sha local_path : String) (runId : Nat) (db1 : DbState)
    (ev0 : List Event) :
    (runAfterClone env branch commit_sha local_path runId db1 ev0).events.filter
        isCreateRunEv = ev0.filter isCreateRunEv ∧
    ((runAfterClone env branch commit_sha local_path runId db1
        ev0).events.filter isUpdateRunEv).length
      = (ev0.filter isUpdateRunEv).length + 1 := by
  unfold runAfterClone
  repeat' (first | split | dsimp only)
  all_goals
    simp [failPath, finishRun, List.filter_append, isCreateRunEv, isUpdateRunEv,
      step4Events_filters, step5Events_filters]

/-- The post-clone body ends unsuccessfully exactly when it raises. -/
theorem runAfterClone_success_char (env : Env)
    (branch commit_sha local_path : String) (runId : Nat) (db1 : DbState)
    (ev0 : List Event) :
    (runAfterClone env branch commit_sha local_path runId db1
        ev0).result.success = !(bodyRaisesB env branch commit_sha) := by
  unfold runAfterClone bodyRaisesB
  repeat' (first | split | dsimp only)
  all_goals simp_all [failPath, finishRun]
  all_goals omega


/-- When the body raises, the one `update_scan_run` is the `except`
handler's: status `failed`, default total 0, default empty counts. -/
theorem runAfterClone_db_runs_of_raise (env : Env)
    (branch commit_sha local_path : String) (runId : Nat) (db1 : DbState)
    (ev0 : List Event) (hr : bodyRaisesB env branch commit_sha = true) :
    (runAfterClone env branch commit_sha local_path runId db1 ev0).db.runs =
      db1.runs.map (fun q => if q.1 = runId then
        (q.1, applyRunUpdate "failed" 0 [] (some env.duration) q.2) else q) := by
  unfold bodyRaisesB at hr
  unfold runAfterClone
  repeat' (first | split | dsimp only)
  all_goals first
    | (simp [failPath, update_scan_run, step4Db_runs, store_ai_analysis,
        store_security_findings]
       done)
    | (exfalso
       simp_all)


/-- Claim C3: every invocation that passes loop prevention adds exactly one
`scan_runs` row (leaving every pre-existing row untouched), issues exactly
one `create_scan_run` and exactly one `update_scan_run`, and the new row's
final status is `completed` or `failed` — never `running` — with the run's
duration recorded; on the success path the row carries the scan's
aggregate counts. -/
theorem C3_run_durability (env : Env) (db : DbState)
    (hpass : passesLoopPrevention env) (hwf : wfDb db) :
    ∃ row : ScanRow,
      (process_github_webhook env db).db.runs = db.runs ++ [(db.nextId, row)] ∧
      (row.scan_status = "completed" ∨ row.scan_status = "failed") ∧
      row.scan_status ≠ "running" ∧
      row.scan_duration_seconds = some env.duration ∧
      ((process_github_webhook env db).result.success = true →
        row.scan_status = "completed" ∧
        row.total_findings = scanTotal env.scan ∧
        row.critical_count = (scanErrList env.scan).length ∧
        row.high_count = (scanWarnList env.scan).length) ∧
      ((process_github_webhook env db).events.filter isCreateRunEv).length = 1 ∧
      ((process_github_webhook env db).events.filter isUpdateRunEv).length = 1 := by
  obtain ⟨hb, hm⟩ := hpass
  have hfresh : ∀ p ∈ db.runs, p.1 ≠ db.nextId := fun p hp => by
    have := hwf p hp; omega
  unfold process_github_webhook
  simp only [hb, hm, Bool.false_eq_true, if_false]
  cases hclone : env.clone with
  | fail cerr =>
      refine ⟨applyRunUpdate "failed" 0 [] (some env.duration)
        { repo_name := env.repo_full_name, branch := effectiveBranch env,
          commit_sha := effectiveCommit env, scan_status := "running",
          total_findings := 0, critical_count := 0, high_count := 0,
          medium_count := 0, low_count := 0, scan_duration_seconds := none },
        ?_, Or.inr rfl, by simp [applyRunUpdate], rfl, ?_, ?_, ?_⟩
      · simp only [failPath, update_scan_run, create_scan_run]
        exact map_update_append db.runs db.nextId _ _ hfresh
      · intro hs
        exact absurd hs (by simp [failPath])
      · simp [failPath, List.filter_append, isCreateRunEv, isUpdateRunEv]
      · simp [failPath, List.filter_append, isCreateRunEv, isUpdateRunEv]
  | ok p =>
      obtain ⟨hevc, hevu⟩ :=
        runAfterClone_events_filters env (effectiveBranch env)
          (effectiveCommit env) p
          (create_scan_run db env.repo_full_name (effectiveBranch env)
            (effectiveCommit env)).1
          (create_scan_run db env.repo_full_name (effectiveBranch env)
            (effectiveCommit env)).2
          [Event.createRun (create_scan_run db env.repo_full_name
              (effectiveBranch env) (effectiveCommit env)).1, Event.cloneCall]
      have hsc := runAfterClone_success_char env (effectiveBranch env)
        (effectiveCommit env) p
        (create_scan_run db env.repo_full_name (effectiveBranch env)
          (effectiveCommit env)).1
        (create_scan_run db env.repo_full_name (effectiveBranch env)
          (effectiveCommit env)).2
        [Event.createRun (create_scan_run db env.repo_full_name
            (effectiveBranch env) (effectiveCommit env)).1, Event.cloneCall]
      cases hr : bodyRaisesB env (effectiveBranch env) (effectiveCommit env) with
      | true =>
          refine ⟨applyRunUpdate "failed" 0 [] (some env.duration)
            { repo_name := env.repo_full_name, branch := effectiveBranch env,
              commit_sha := effectiveCommit env, scan_status := "running",
              total_findings := 0, critical_count := 0, high_count := 0,
              medium_count := 0, low_count := 0, scan_duration_seconds := none },
            ?_, Or.inr rfl, by simp [applyRunUpdate], rfl, ?_, ?_, ?_⟩
          · rw [runAfterClone_db_runs_of_raise env (effectiveBranch env)
              (effectiveCommit env) p _ _ _ hr]
            simp only [create_scan_run]
            exact map_update_append db.runs db.nextId _ _ hfresh
          · intro hs
            rw [hsc, hr] at hs
            exact absurd hs (by simp)
          · rw [hevc]; simp [isCreateRunEv]
          · rw [hevu]; simp [isUpdateRunEv]
      | false =>
          refine ⟨applyRunUpdate "completed" (scanTotal env.scan)
            [("ERROR", (scanErrList env.scan).length),
             ("WARNING", (scanWarnList env.scan).length),
             ("INFO", (scanInfoList env.scan).length)] (some env.duration)
            { repo_name := env.repo_full_name, branch := effectiveBranch env,
              commit_sha := effectiveCommit env, scan_status := "running",
              total_findings := 0, critical_count := 0, high_count := 0,
              medium_count := 0, low_count := 0, scan_duration_seconds := none },
            ?_, Or.inl rfl, by simp [applyRunUpdate], rfl, ?_, ?_, ?_⟩
          · rw [runAfterClone_db_runs_of_ok env (effectiveBranch env)
              (effectiveCommit env) p _ _ _ hr]
            simp only [create_scan_run]
            exact map_update_append db.runs db.nextId _ _ hfresh
          · intro _
            refine ⟨by simp [applyRunUpdate], by simp [applyRunUpdate], ?_, ?_⟩
            · simp [applyRunUpdate, List.lookup]
            · simp [applyRunUpdate, List.lookup]
          · rw [hevc]; simp [isCreateRunEv]
          · rw [hevu]; simp [isUpdateRunEv]

/-- Step 4 never calls fix generation. -/
theorem step4Events_no_fixCall (env : Env) (runId : Nat) (i : Option IssueResult) :
    Event.generateFixesCall ∉ step4Events env runId i := by
  unfold step4Events
  repeat' split
  all_goals simp

/-- Step 4 never calls PR creation. -/
theorem step4Events_no_prCall (env : Env) (runId : Nat) (i : Option IssueResult) :
    Event.createPrCall ∉ step4Events env runId i := by
  unfold step4Events
  repeat' split
  all_goals simp

/-- Step 5 never calls issue creation. -/
theorem step5Events_no_issueCall (env : Env) (i : Option IssueResult) :
    Event.createIssueCall ∉ step5Events env i := by
  unfold step5Events
  repeat' split
  all_goals simp

/-- Step 5 always starts with the fix-generation call. -/
theorem step5Events_fixCall (env : Env) (i : Option IssueResult) :
    Event.generateFixesCall ∈ step5Events env i := by
  unfold step5Events
  simp

/-- With zero findings the run never calls `create_security_issue`. -/
theorem runAfterClone_no_issue_when_clean (env : Env)
    (branch commit_sha local_path : String) (runId : Nat) (db1 : DbState)
    (ev0 : List Event) (h1 : Event.createIssueCall ∉ ev0)
    (htotal : scanTotal env.scan = 0) :
    Event.createIssueCall ∉
      (runAfterClone env branch commit_sha local_path runId db1 ev0).events := by
  unfold runAfterClone
  repeat' (first | split | dsimp only)
  all_goals
    simp [failPath, finishRun, step4IssueRes, htotal, step4Events,
      step5Events_no_issueCall, List.mem_append, h1]

/-- With an empty `critical_issues` list the run calls neither
`generate_code_fixes` nor `create_security_fix_pr`. -/
theorem runAfterClone_no_fix_when_empty (env : Env)
    (branch commit_sha local_path : String) (runId : Nat) (db1 : DbState)
    (ev0 : List Event)
    (h2 : Event.generateFixesCall ∉ ev0) (h3 : Event.createPrCall ∉ ev0)
    (hc : lookupD (analyze_security_findings env.scan
        { repo_name := env.repo_full_name, branch := branch,
          commit_sha := commit_sha } env.claude)
      "critical_issues" (Json.arr []) = Json.arr []) :
    Event.generateFixesCall ∉
      (runAfterClone env branch commit_sha local_path runId db1 ev0).events ∧
    Event.createPrCall ∉
      (runAfterClone env branch commit_sha local_path runId db1 ev0).events := by
  unfold runAfterClone
  simp only [hc, pyTruthy, List.isEmpty_nil, Bool.not_true, Bool.false_eq_true,
    if_false]
  repeat' (first | split | dsimp only)
  all_goals
    constructor <;>
      simp [failPath, finishRun, step4Events_no_fixCall, step4Events_no_prCall,
        List.mem_append, h2, h3]

/-- With a non-empty `critical_issues` list, a run that ends successfully
has called `generate_code_fixes`. -/
theorem runAfterClone_fix_called (env : Env)
    (branch commit_sha local_path : String) (runId : Nat) (db1 : DbState)
    (ev0 : List Event) (xs : List Json)
    (hxs : lookupD (analyze_security_findings env.scan
        { repo_name := env.repo_full_name, branch := branch,
          commit_sha := commit_sha } env.claude)
      "critical_issues" (Json.arr []) = Json.arr xs) (hne : xs ≠ []) :
    (runAfterClone env branch commit_sha local_path runId db1
        ev0).result.success = true →
    Event.generateFixesCall ∈
      (runAfterClone env branch commit_sha local_path runId db1 ev0).events := by
  unfold runAfterClone
  simp only [hxs, pyTruthy, pyLen]
  have hxe : xs.isEmpty = false := by
    cases xs with
    | nil => exact absurd rfl hne
    | cons a l => rfl
  have hlen : 0 < xs.length := List.length_pos.mpr hne
  repeat' (first | split | dsimp only)
  all_goals intro hsucc
  all_goals first
    | (simp [failPath] at hsucc
       done)
    | (simp [finishRun, step5Events, List.mem_append]
       done)
    | (exfalso
       simp_all)

/-- Claim C5: in every successful (non-skipped) run, a scan with zero
findings files no issue; an empty `critical_issues` list triggers neither
fix generation nor a fix PR; and a non-empty `critical_issues` list
triggers fix generation. -/
theorem C5_conditional_gating (env : Env) (db : DbState)
    (hpass : passesLoopPrevention env)
    (hsucc : (process_github_webhook env db).result.success = true) :
    (scanTotal env.scan = 0 →
      Event.createIssueCall ∉ (process_github_webhook env db).events) ∧
    (criticalOf env = Json.arr [] →
      Event.generateFixesCall ∉ (process_github_webhook env db).events ∧
      Event.createPrCall ∉ (process_github_webhook env db).events) ∧
    (∀ xs, criticalOf env = Json.arr xs → xs ≠ [] →
      Event.generateFixesCall ∈ (process_github_webhook env db).events) := by
  obtain ⟨hb, hm⟩ := hpass
  simp only [process_github_webhook, hb, hm, Bool.false_eq_true, if_false]
    at hsucc ⊢
  cases hclone : env.clone with
  | fail cerr =>
      rw [hclone] at hsucc
      simp [failPath] at hsucc
  | ok p =>
      rw [hclone] at hsucc
      dsimp only at hsucc ⊢
      refine ⟨?_, ?_, ?_⟩
      · intro htotal
        exact runAfterClone_no_issue_when_clean env _ _ p _ _ _ (by simp) htotal
      · intro hc
        exact runAfterClone_no_fix_when_empty env _ _ p _ _ _ (by simp) (by simp) hc
      · intro xs hxs hne
        exact runAfterClone_fix_called env _ _ p _ _ _ xs hxs hne hsucc


/-- Claim C5, instantiated: the clean run files no issue and generates no
fix; the one-critical-finding run calls fix generation. -/
theorem C5_witness :
    Event.createIssueCall ∉ (process_github_webhook baseEnv emptyDb).events ∧
    Event.generateFixesCall ∉ (process_github_webhook baseEnv emptyDb).events ∧
    Event.generateFixesCall ∈ (process_github_webhook criticalEnv emptyDb).events := by
  have h1 := C5_conditional_gating baseEnv emptyDb ⟨rfl, rfl⟩ rfl
  have h2 := C5_conditional_gating criticalEnv emptyDb ⟨rfl, rfl⟩ rfl
  exact ⟨h1.1 rfl, (h1.2.1 rfl).1,
    h2.2.2 [vulnToCritical ⟨"sql-injection", "SQLi", "app.py", 45, "s", "ERROR", [], []⟩]
      rfl (by simp)⟩


/-- The boolean raise condition, as a proposition over the environment. -/
theorem bodyRaisesB_iff (env : Env) :
    bodyRaisesB env (effectiveBranch env) (effectiveCommit env) = true ↔
      scanFailed env ∨
        (¬scanFailed env ∧ (gateRaises env ∨ metaRaises env)) := by
  unfold bodyRaisesB scanFailed gateRaises metaRaises criticalOf analysisOf
  by_cases h1 : pyTruthyOptStr (scanError env.scan) = true
  · simp [h1]
  · cases h3 : pyLen (lookupD (analyze_security_findings env.scan
        { repo_name := env.repo_full_name, branch := effectiveBranch env,
          commit_sha := effectiveCommit env } env.claude)
        "critical_issues" (.arr [])) with
    | none => simp [h1, h3]
    | some n =>
        by_cases h4 : scanTotal env.scan = 0
        · simp [h1, h3, h4]
        · simp [h1, h3, h4]

/-- Claim C2 as stated is false at a concrete run: clone and scan both
succeed (zero findings, no scan error), but the parsed model analysis lists
one critical issue, so the fix step references the never-assigned
`scan_metadata` and the run ends `failed`. -/
theorem C2_counterexample :
    (process_github_webhook
        { baseEnv with claude := .ok (.text "t"
            (.direct [("critical_issues", Json.arr [Json.obj []])]) "p") }
        emptyDb).result.success = false ∧
    (process_github_webhook
        { baseEnv with claude := .ok (.text "t"
            (.direct [("critical_issues", Json.arr [Json.obj []])]) "p") }
        emptyDb).result.error =
      some "UnboundLocalError: scan_metadata referenced before assignment" ∧
    ({ baseEnv with claude := .ok (.text "t"
        (.direct [("critical_issues", Json.arr [Json.obj []])]) "p") } : Env).clone
      = CloneOutcome.ok "/tmp/watchman_clone/app" ∧
    scanError ({ baseEnv with claude := .ok (.text "t"
        (.direct [("critical_issues", Json.arr [Json.obj []])]) "p") } : Env).scan
      = none :=
  ⟨rfl, rfl, rfl, rfl⟩

/-- Claim C2, amended: a run that passes loop prevention ends `failed`
exactly when the clone fails, the scan fails, or — clone and scan both
succeeding — the `critical_issues` gating raises: either the value is
truthy but unsized (`TypeError` in `len`), or it is a positively-sized
truthy value while the scan reported zero findings (`UnboundLocalError` on
`scan_metadata` in the fix step).  Every other later step degrades without
failing the run. -/
theorem C2_failure_characterisation (env : Env) (db : DbState)
    (hpass : passesLoopPrevention env) :
    (process_github_webhook env db).result.success = false ↔
      cloneFailed env ∨ scanFailed env ∨
        (¬cloneFailed env ∧ ¬scanFailed env ∧
          (gateRaises env ∨ metaRaises env)) := by
  obtain ⟨hb, hm⟩ := hpass
  unfold process_github_webhook
  simp only [hb, hm, Bool.false_eq_true, if_false]
  cases hclone : env.clone with
  | fail cerr =>
      constructor
      · intro _
        exact Or.inl ⟨cerr, hclone⟩
      · intro _
        simp [failPath]
  | ok p =>
      have hnc : ¬cloneFailed env := by
        rintro ⟨e, he⟩
        rw [hclone] at he
        cases he
      rw [runAfterClone_success_char]
      by_cases hr : bodyRaisesB env (effectiveBranch env) (effectiveCommit env)
        = true
      · simp only [hr, Bool.not_true]
        constructor
        · intro _
          rcases (bodyRaisesB_iff env).mp hr with h | ⟨hns, h⟩
          · exact Or.inr (Or.inl h)
          · exact Or.inr (Or.inr ⟨hnc, hns, h⟩)
        · intro _
          trivial
      · have hr' : bodyRaisesB env (effectiveBranch env) (effectiveCommit env)
          = false := by
          cases hv : bodyRaisesB env (effectiveBranch env) (effectiveCommit env)
          · rfl
          · exact absurd hv hr
        simp only [hr', Bool.not_false]
        constructor
        · intro h
          exact Bool.noConfusion h
        · rintro (h | h | ⟨hc, hns, h⟩)
          · exact absurd h hnc
          · exact absurd ((bodyRaisesB_iff env).mpr (Or.inl h)) (by simp [hr'])
          · exact absurd ((bodyRaisesB_iff env).mpr (Or.inr ⟨hns, h⟩))
              (by simp [hr'])

/-- Claim C2's amended statement, instantiated at the counterexample
environment: the failure is exactly accounted for by the
`UnboundLocalError` of the fix step. -/
theorem C2_witness :
    (process_github_webhook
        { baseEnv with claude := .ok (.text "t"
            (.direct [("critical_issues", Json.arr [Json.obj []])]) "p") }
        emptyDb).result.success = false ↔
      cloneFailed { baseEnv with claude := .ok (.text "t"
          (.direct [("critical_issues", Json.arr [Json.obj []])]) "p") } ∨
      scanFailed { baseEnv with claude := .ok (.text "t"
          (.direct [("critical_issues", Json.arr [Json.obj []])]) "p") } ∨
        (¬cloneFailed { baseEnv with claude := .ok (.text "t"
            (.direct [("critical_issues", Json.arr [Json.obj []])]) "p") } ∧
         ¬scanFailed { baseEnv with claude := .ok (.text "t"
            (.direct [("critical_issues", Json.arr [Json.obj []])]) "p") } ∧
          (gateRaises { baseEnv with claude := .ok (.text "t"
              (.direct [("critical_issues", Json.arr [Json.obj []])]) "p") } ∨
           metaRaises { baseEnv with claude := .ok (.text "t"
              (.direct [("critical_issues", Json.arr [Json.obj []])]) "p") })) :=
  C2_failure_characterisation
    { baseEnv with claude := .ok (.text "t"
        (.direct [("critical_issues", Json.arr [Json.obj []])]) "p") }
    emptyDb ⟨rfl, rfl⟩

/-- Once the scan step passes, the run's findings batch is persisted and
stays persisted whatever happens later. -/
theorem runAfterClone_findings (env : Env)
    (branch commit_sha local_path : String) (runId : Nat) (db1 : DbState)
    (ev0 : List Event)
    (hns : pyTruthyOptStr (scanError env.scan) = false) :
    (runAfterClone env branch commit_sha local_path runId db1
        ev0).db.findings =
      db1.findings ++ (scanErrList env.scan ++ scanWarnList env.scan ++
        scanInfoList env.scan).map (Prod.mk runId) := by
  unfold runAfterClone
  simp only [hns, Bool.false_eq_true, if_false]
  repeat' (first | split | dsimp only)
  all_goals
    simp [failPath, finishRun, update_scan_run, step4Db_findings,
      store_ai_analysis, store_security_findings]

/-- Claim C9: every failed run's `except` path calls `update_scan_run` with
status `failed` and no finding counts, overwriting `total_findings` and all
four per-severity columns with 0 — even though, whenever the scan step had
succeeded, the run's findings remain persisted in `security_findings`. -/
theorem C9_failed_run_zero_counts (env : Env) (db : DbState)
    (hpass : passesLoopPrevention env) (hwf : wfDb db)
    (hfail : (process_github_webhook env db).result.success = false) :
    (∃ row : ScanRow,
      (process_github_webhook env db).db.runs = db.runs ++ [(db.nextId, row)] ∧
      row.scan_status = "failed" ∧ row.total_findings = 0 ∧
      row.critical_count = 0 ∧ row.high_count = 0 ∧
      row.medium_count = 0 ∧ row.low_count = 0 ∧
      row.scan_duration_seconds = some env.duration) ∧
    (¬cloneFailed env → ¬scanFailed env →
      (process_github_webhook env db).db.findings =
        db.findings ++ (scanErrList env.scan ++ scanWarnList env.scan ++
          scanInfoList env.scan).map (Prod.mk db.nextId)) := by
  obtain ⟨hb, hm⟩ := hpass
  have hfresh : ∀ p ∈ db.runs, p.1 ≠ db.nextId := fun p hp => by
    have := hwf p hp; omega
  unfold process_github_webhook at hfail ⊢
  simp only [hb, hm, Bool.false_eq_true, if_false] at hfail ⊢
  cases hclone : env.clone with
  | fail cerr =>
      dsimp only at hfail ⊢
      constructor
      · refine ⟨applyRunUpdate "failed" 0 [] (some env.duration)
          { repo_name := env.repo_full_name, branch := effectiveBranch env,
            commit_sha := effectiveCommit env, scan_status := "running",
            total_findings := 0, critical_count := 0, high_count := 0,
            medium_count := 0, low_count := 0, scan_duration_seconds := none },
          ?_, rfl, rfl, rfl, rfl, rfl, rfl, rfl⟩
        simp only [failPath, update_scan_run, create_scan_run]
        exact map_update_append db.runs db.nextId _ _ hfresh
      · intro hnc hns
        exact absurd ⟨cerr, hclone⟩ hnc
  | ok p =>
      rw [hclone] at hfail
      dsimp only at hfail ⊢
      have hr : bodyRaisesB env (effectiveBranch env) (effectiveCommit env)
          = true := by
        have hc := runAfterClone_success_char env (effectiveBranch env)
          (effectiveCommit env) p
          (create_scan_run db env.repo_full_name (effectiveBranch env)
            (effectiveCommit env)).1
          (create_scan_run db env.repo_full_name (effectiveBranch env)
            (effectiveCommit env)).2
          [Event.createRun (create_scan_run db env.repo_full_name
              (effectiveBranch env) (effectiveCommit env)).1, Event.cloneCall]
        rw [hc] at hfail
        cases hv : bodyRaisesB env (effectiveBranch env) (effectiveCommit env)
        · rw [hv] at hfail
          exact absurd hfail (by simp)
        · rfl
      constructor
      · refine ⟨applyRunUpdate "failed" 0 [] (some env.duration)
          { repo_name := env.repo_full_name, branch := effectiveBranch env,
            commit_sha := effectiveCommit env, scan_status := "running",
            total_findings := 0, critical_count := 0, high_count := 0,
            medium_count := 0, low_count := 0, scan_duration_seconds := none },
          ?_, rfl, rfl, rfl, rfl, rfl, rfl, rfl⟩
        rw [runAfterClone_db_runs_of_raise env (effectiveBranch env)
          (effectiveCommit env) p _ _ _ hr]
        simp only [create_scan_run]
        exact map_update_append db.runs db.nextId _ _ hfresh
      · intro hnc hns
        have hns' : pyTruthyOptStr (scanError env.scan) = false := by
          unfold scanFailed at hns
          cases hv : pyTruthyOptStr (scanError env.scan)
          · rfl
          · exact absurd hv hns
        rw [runAfterClone_findings env (effectiveBranch env)
          (effectiveCommit env) p _ _ _ hns']
        rfl


/-- Claim C9, instantiated: the gate-raising run fails, its run row reports
zero everywhere, yet both findings are still persisted in
`security_findings`. -/
theorem C9_witness :
    (∃ row : ScanRow,
      (process_github_webhook gateEnv emptyDb).db.runs =
        emptyDb.runs ++ [(emptyDb.nextId, row)] ∧
      row.scan_status = "failed" ∧ row.total_findings = 0 ∧
      row.critical_count = 0 ∧ row.high_count = 0 ∧
      row.medium_count = 0 ∧ row.low_count = 0 ∧
      row.scan_duration_seconds = some gateEnv.duration) ∧
    (process_github_webhook gateEnv emptyDb).db.findings =
      emptyDb.findings ++ (scanErrList gateEnv.scan ++ scanWarnList gateEnv.scan
        ++ scanInfoList gateEnv.scan).map (Prod.mk emptyDb.nextId) := by
  have h := C9_failed_run_zero_counts gateEnv emptyDb ⟨rfl, rfl⟩
    (fun p hp => absurd hp (List.not_mem_nil p)) rfl
  refine ⟨h.1, h.2 ?_ (by unfold scanFailed; decide)⟩
  rintro ⟨e, he⟩
  simp [gateEnv, baseEnv] at he

/-- Claim C3, instantiated at the benign environment and the empty store. -/
theorem C3_witness :
    ∃ row : ScanRow,
      (process_github_webhook baseEnv emptyDb).db.runs =
        emptyDb.runs ++ [(emptyDb.nextId, row)] ∧
      (row.scan_status = "completed" ∨ row.scan_status = "failed") ∧
      row.scan_status ≠ "running" ∧
      row.scan_duration_seconds = some baseEnv.duration ∧
      ((process_github_webhook baseEnv emptyDb).result.success = true →
        row.scan_status = "completed" ∧
        row.total_findings = scanTotal baseEnv.scan ∧
        row.critical_count = (scanErrList baseEnv.scan).length ∧
        row.high_count = (scanWarnList baseEnv.scan).length) ∧
      ((process_github_webhook baseEnv emptyDb).events.filter
        isCreateRunEv).length = 1 ∧
      ((process_github_webhook baseEnv emptyDb).events.filter
        isUpdateRunEv).length = 1 :=
  C3_run_durability baseEnv emptyDb ⟨rfl, rfl⟩
    (fun p hp => absurd hp (List.not_mem_nil p))
